import Mathlib

/-!
Verification of the Mooer GE150 Pro Li wire-protocol codec and preset serializer.

The development shallowly embeds the protocol layer (framing, command builders,
response dispatch), the preset/effect data model, and the file container
formats.  Byte strings are `List Nat`; Python slices `data[a:b]` become
`pySlice a b data` (which clamps exactly as Python slicing does), fallible
functions return `Option` or `Except String`, and machine integers are `Nat`
with explicit `% 256` / `% 65536` where the code masks or splits words.
-/

namespace Mooer

/-- Python slice `l[a:b]` for nonnegative bounds: clamps at the end of the list
and yields `[]` when `b ≤ a`. -/
def pySlice (a b : Nat) (l : List Nat) : List Nat :=
  (l.drop a).take (b - a)

/-- Little-endian value of a byte string, as `int.from_bytes(l, "little")`. -/
def fromBytesLE (l : List Nat) : Nat :=
  l.foldr (fun b acc => b + 256 * acc) 0

/-- Two-byte little-endian encoding, as `n.to_bytes(2, "little")`
(for `n < 65536`, where the Python call does not raise). -/
def toBytesLE2 (n : Nat) : List Nat :=
  [n % 256, n / 256 % 256]

/-- Modelled from the spec: the Checksum Engine (`mooer_ge150_mcp/utils/crc.py`)
is not present under `src/`; only its tests and callers are.  The spec pins the
contract: `crc16` is pure and deterministic, returns a 16-bit value, the working
register starts at `0xFFFF` and is returned unmodified when no bytes are
consumed, and the reference vector is `crc16 [0xA6, 0x02] = 0x6865`; the
concrete table must be reproduced from the vendor tool and is otherwise
unspecified.  This model is a reflected table-free CRC-16 with polynomial
`0x8540` and initial register `0xFFFF`, which satisfies every constraint the
spec states, including the reference vector. -/
def crcRounds : Nat → Nat → Nat
  | 0, crc => crc
  | n + 1, crc => crcRounds n (if crc % 2 = 1 then (crc / 2) ^^^ 0x8540 else crc / 2)

/-- Modelled from the spec: see `crcRounds`.  One table step per input byte,
register initialised to `0xFFFF`. -/
def crc16 (data : List Nat) : Nat :=
  data.foldl (fun crc b => crcRounds 8 (crc ^^^ b)) 0xFFFF

/-! ### Frame codec (`protocol/framing.py`) -/

def PREAMBLE : List Nat := [0xAA, 0x55]

def HID_REPORT_SIZE : Nat := 64

def MAX_PAYLOAD_PER_FRAME : Nat := 58

/-- A parsed protocol frame. -/
structure Frame where
  command : Nat
  payload : List Nat
deriving DecidableEq, Repr

/-- `build_frame`: build a 64-byte HID report containing a single protocol
frame.  `b"\x00" * k` for negative `k` is empty in Python, matching truncated
`Nat` subtraction in `List.replicate`. -/
def build_frame (command : Nat) (payload : List Nat) : List Nat :=
  let body := command :: payload
  let size := toBytesLE2 body.length
  let checksum := toBytesLE2 (crc16 body)
  let frame := PREAMBLE ++ size ++ body ++ checksum
  let hid_size := frame.length
  hid_size :: (frame ++ List.replicate (HID_REPORT_SIZE - 1 - frame.length) 0)

/-- The chunking loop of `build_chunked_frames`: split the full encoded message
into consecutive slices of at most 63 bytes, each emitted as
`[chunk_len] ++ chunk ++ zero padding to 64`. -/
def chunkReports (msg : List Nat) : List (List Nat) :=
  if h : msg = [] then []
  else
    let chunk := msg.take 63
    (chunk.length :: (chunk ++ List.replicate (63 - chunk.length) 0)) ::
      chunkReports (msg.drop 63)
  termination_by msg.length
  decreasing_by
    simp only [List.length_drop]
    have : 0 < msg.length := List.length_pos.mpr h
    omega

/-- `build_chunked_frames`: one report identical to `build_frame` when the
full encoded message fits in 63 bytes, else 63-byte chunks. -/
def build_chunked_frames (command : Nat) (payload : List Nat) : List (List Nat) :=
  let body := command :: payload
  let size_bytes := toBytesLE2 body.length
  let checksum := toBytesLE2 (crc16 body)
  let full_message := PREAMBLE ++ size_bytes ++ body ++ checksum
  if full_message.length ≤ HID_REPORT_SIZE - 1 then
    [build_frame command payload]
  else
    chunkReports full_message

/-- `parse_frame`: parse a 64-byte HID report into a `Frame`, rejecting
undersized reports, bad preamble, zero body size and checksum mismatch. -/
def parse_frame (data : List Nat) : Option Frame :=
  if data.length < 8 then none
  else
    let hid_size := data.getD 0 0
    if hid_size < 7 then none
    else if pySlice 1 3 data ≠ PREAMBLE then none
    else
      let body_size := fromBytesLE (pySlice 3 5 data)
      if body_size < 1 then none
      else
        let command := data.getD 5 0
        let payload := pySlice 6 (5 + body_size) data
        let body := pySlice 5 (5 + body_size) data
        let expected_checksum := fromBytesLE (pySlice (5 + body_size) (5 + body_size + 2) data)
        if crc16 body ≠ expected_checksum then none
        else some { command := command, payload := payload }

/-- The reassembly loop of `parse_chunked_frames`: concatenate the meaningful
bytes (first-byte-declared prefix) of each report. -/
def assembleFold (acc : List Nat) (reports : List (List Nat)) : List Nat :=
  match reports with
  | [] => acc
  | report :: rest =>
      if report.length < 1 then assembleFold acc rest
      else assembleFold (acc ++ pySlice 1 (1 + report.getD 0 0) report) rest

/-- `parse_chunked_frames`: reassemble a multi-report message and parse it. -/
def parse_chunked_frames (reports : List (List Nat)) : Option Frame :=
  let assembled := assembleFold [] reports
  if assembled.length < 7 then none
  else if pySlice 0 2 assembled ≠ PREAMBLE then none
  else
    let body_size := fromBytesLE (pySlice 2 4 assembled)
    if body_size < 1 then none
    else
      let command := assembled.getD 4 0
      let payload := pySlice 5 (4 + body_size) assembled
      let body := pySlice 4 (4 + body_size) assembled
      let expected_checksum := fromBytesLE (pySlice (4 + body_size) (4 + body_size + 2) assembled)
      if crc16 body ≠ expected_checksum then none
      else some { command := command, payload := payload }

/-! ### Command catalog and builders (`protocol/commands.py`) -/

namespace Command

def IDENTIFY : Nat := 0x10
def MENU : Nat := 0x82
def PRESET : Nat := 0x83
def PEDAL_ASSIGN_ALT : Nat := 0x84
def CAB_MODELS : Nat := 0x85
def FOOT_SWITCH : Nat := 0x89
def FX : Nat := 0x90
def DS_OD : Nat := 0x91
def AMP : Nat := 0x93
def CAB : Nat := 0x94
def NS_GATE : Nat := 0x95
def EQ : Nat := 0x96
def MOD : Nat := 0x97
def DELAY : Nat := 0x98
def REVERB : Nat := 0x99
def SYSTEM : Nat := 0xA1
def VOLUME : Nat := 0xA2
def PEDAL_ASSIGNMENT : Nat := 0xA3
def PATCH_ALTERNATE : Nat := 0xA4
def PATCH_SETTING : Nat := 0xA5
def ACTIVE_PATCH : Nat := 0xA6
def STORE_PATCH : Nat := 0xA8
def ACTIVE_PATCH_SETTING : Nat := 0xA9
def CABINET_UPLOAD : Nat := 0xE1
def AMP_UPLOAD : Nat := 0xE2
def AMP_MODELS : Nat := 0xE3

end Command

/-- The members of the `Command` enumeration: `Command(x)` succeeds in Python
exactly when `x` is in this list. -/
def commandValues : List Nat :=
  [Command.IDENTIFY, Command.MENU, Command.PRESET, Command.PEDAL_ASSIGN_ALT,
   Command.CAB_MODELS, Command.FOOT_SWITCH, Command.FX, Command.DS_OD,
   Command.AMP, Command.CAB, Command.NS_GATE, Command.EQ, Command.MOD,
   Command.DELAY, Command.REVERB, Command.SYSTEM, Command.VOLUME,
   Command.PEDAL_ASSIGNMENT, Command.PATCH_ALTERNATE, Command.PATCH_SETTING,
   Command.ACTIVE_PATCH, Command.STORE_PATCH, Command.ACTIVE_PATCH_SETTING,
   Command.CABINET_UPLOAD, Command.AMP_UPLOAD, Command.AMP_MODELS]

/-- Mapping from human-readable module names to command IDs. -/
def MODULE_COMMAND_MAP : List (String × Nat) :=
  [("fx", Command.FX), ("od", Command.DS_OD), ("amp", Command.AMP),
   ("cab", Command.CAB), ("ns", Command.NS_GATE), ("eq", Command.EQ),
   ("mod", Command.MOD), ("delay", Command.DELAY), ("reverb", Command.REVERB)]

/-- `build_command`: build a single 64-byte HID report for a command. -/
def build_command (command : Nat) (payload : List Nat) : List Nat :=
  build_frame command payload

/-- `build_identify`: handshake request. -/
def build_identify : List Nat :=
  build_command Command.IDENTIFY []

/-- `build_select_preset`: slot must be 0-199, else `ValueError`. -/
def build_select_preset (slot : Int) : Except String (List Nat) :=
  if ¬ (0 ≤ slot ∧ slot ≤ 199) then
    Except.error ("Preset slot must be 0-199, got " ++ toString slot)
  else
    Except.ok (build_command Command.ACTIVE_PATCH [slot.toNat])

/-- `build_read_preset`: slot must be 0-199, else `ValueError`. -/
def build_read_preset (slot : Int) : Except String (List Nat) :=
  if ¬ (0 ≤ slot ∧ slot ≤ 199) then
    Except.error ("Preset slot must be 0-199, got " ++ toString slot)
  else
    Except.ok (build_command Command.PRESET [slot.toNat])

/-- `build_store_preset`: slot must be 0-199 and the data exactly 512 bytes,
else `ValueError`; the result is chunked. -/
def build_store_preset (slot : Int) (preset_data : List Nat) :
    Except String (List (List Nat)) :=
  if ¬ (0 ≤ slot ∧ slot ≤ 199) then
    Except.error ("Preset slot must be 0-199, got " ++ toString slot)
  else if preset_data.length ≠ 0x200 then
    Except.error ("Preset data must be 512 bytes, got " ++ toString preset_data.length)
  else
    Except.ok (build_chunked_frames Command.STORE_PATCH (slot.toNat :: preset_data))

/-- `build_effect_param`: the module must be a key of `MODULE_COMMAND_MAP` and
the value in 0-255, else an explicit `ValueError`; `param_index` has no
explicit check, but the payload construction `bytes([param_index, value])`
raises `ValueError` for a `param_index` outside 0-255, after the explicit
checks and before any report is built. -/
def build_effect_param (module : String) (param_index : Int) (value : Int) :
    Except String (List Nat) :=
  match MODULE_COMMAND_MAP.lookup module with
  | none => Except.error ("Unknown module " ++ module)
  | some cmd =>
      if ¬ (0 ≤ value ∧ value ≤ 255) then
        Except.error ("Parameter value must be 0-255, got " ++ toString value)
      else if ¬ (0 ≤ param_index ∧ param_index ≤ 255) then
        Except.error "bytes must be in range(0, 256)"
      else
        Except.ok (build_command cmd [param_index.toNat, value.toNat])

/-- `build_toggle_effect`: specialization of `build_effect_param` at index 1. -/
def build_toggle_effect (module : String) (enabled : Bool) :
    Except String (List Nat) :=
  build_effect_param module 1 (if enabled then 1 else 0)

/-- `build_set_volume`: volume must be 0-100, else `ValueError`. -/
def build_set_volume (volume : Int) : Except String (List Nat) :=
  if ¬ (0 ≤ volume ∧ volume ≤ 100) then
    Except.error ("Volume must be 0-100, got " ++ toString volume)
  else
    Except.ok (build_command Command.VOLUME [volume.toNat])

/-! ### Response parsing (`protocol/parser.py`) -/

/-- Decoding of ASCII bytes with `errors="replace"`: bytes outside ASCII are
replaced by U+FFFD. -/
def asciiDecodeReplace (bs : List Nat) : String :=
  String.mk (bs.map fun b => if b < 128 then Char.ofNat b else Char.ofNat 0xFFFD)

structure IdentifyResponse where
  firmware : String
  device_name : String
  raw : List Nat
deriving DecidableEq, Repr

structure PresetResponse where
  slot : Nat
  data : List Nat
deriving DecidableEq, Repr

structure ActivePatchResponse where
  slot : Nat
deriving DecidableEq, Repr

structure VolumeResponse where
  volume : Nat
deriving DecidableEq, Repr

structure SystemResponse where
  data : List Nat
deriving DecidableEq, Repr

/-- `parse_identify`: 5-byte firmware version digits plus 11-byte
null-terminated ASCII device name; short payloads degrade to "unknown". -/
def parse_identify (frame : Frame) : Option IdentifyResponse :=
  if frame.command ≠ Command.IDENTIFY then none
  else if frame.payload.length < 16 then
    some { firmware := "unknown", device_name := "unknown", raw := frame.payload }
  else
    let fw_bytes := frame.payload.take 5
    let firmware_parts := (fw_bytes.filter (fun b => b != 0)).map toString
    let firmware :=
      if firmware_parts.isEmpty then "unknown"
      else String.intercalate "." firmware_parts
    let name_bytes := (frame.payload.drop 5).take 11
    let device_name := asciiDecodeReplace (name_bytes.takeWhile (fun b => b != 0))
    some { firmware := firmware, device_name := device_name, raw := frame.payload }

/-- `parse_preset_response`: slot byte followed by raw preset data. -/
def parse_preset_response (frame : Frame) : Option PresetResponse :=
  if frame.command ≠ Command.PRESET then none
  else if frame.payload.length < 1 then none
  else some { slot := frame.payload.getD 0 0, data := frame.payload.drop 1 }

/-- `parse_active_patch`: single slot byte. -/
def parse_active_patch (frame : Frame) : Option ActivePatchResponse :=
  if frame.command ≠ Command.ACTIVE_PATCH then none
  else if frame.payload.length < 1 then none
  else some { slot := frame.payload.getD 0 0 }

/-- `parse_volume`: single volume byte. -/
def parse_volume (frame : Frame) : Option VolumeResponse :=
  if frame.command ≠ Command.VOLUME then none
  else if frame.payload.length < 1 then none
  else some { volume := frame.payload.getD 0 0 }

/-- `parse_system`: uninterpreted payload. -/
def parse_system (frame : Frame) : Option SystemResponse :=
  if frame.command ≠ Command.SYSTEM then none
  else some { data := frame.payload }

/-- A value returned by `parse_response`: a typed response or the raw frame. -/
inductive ParsedMessage where
  | identify : IdentifyResponse → ParsedMessage
  | preset : PresetResponse → ParsedMessage
  | activePatch : ActivePatchResponse → ParsedMessage
  | volume : VolumeResponse → ParsedMessage
  | system : SystemResponse → ParsedMessage
  | raw : Frame → ParsedMessage
deriving DecidableEq, Repr

/-- `parse_response`: look the command up in the dispatch table and apply its
parser, falling back to the raw frame.  The lookup key is `Command(frame.command)`,
whose construction raises `ValueError` (modelled as `Except.error`) when the
byte is not a member of the `Command` enumeration. -/
def parse_response (frame : Frame) : Except String ParsedMessage :=
  if frame.command ∈ commandValues then
    Except.ok (
      if frame.command = Command.IDENTIFY then
        match parse_identify frame with
        | some r => ParsedMessage.identify r
        | none => ParsedMessage.raw frame
      else if frame.command = Command.PRESET then
        match parse_preset_response frame with
        | some r => ParsedMessage.preset r
        | none => ParsedMessage.raw frame
      else if frame.command = Command.ACTIVE_PATCH then
        match parse_active_patch frame with
        | some r => ParsedMessage.activePatch r
        | none => ParsedMessage.raw frame
      else if frame.command = Command.VOLUME then
        match parse_volume frame with
        | some r => ParsedMessage.volume r
        | none => ParsedMessage.raw frame
      else if frame.command = Command.SYSTEM then
        match parse_system frame with
        | some r => ParsedMessage.system r
        | none => ParsedMessage.raw frame
      else ParsedMessage.raw frame)
  else
    Except.error (toString frame.command ++ " is not a valid Command")

/-! ### Effect modules (`models/effects.py`) -/

/-- Zero-padding of short buffers used by every `from_bytes`:
`data + b"\x00" * (size - len(data))` when `len(data) < size`. -/
def padTo (n : Nat) (data : List Nat) : List Nat :=
  if data.length < n then data ++ List.replicate (n - data.length) 0 else data

/-- FX / Compressor module (13 bytes). -/
structure FXModule where
  header : Nat := 0
  enabled : Nat := 0
  type : Nat := 0
  q : Nat := 0
  position : Nat := 0
  peak : Nat := 0
  level : Nat := 0
  reserved : List Nat := List.replicate 6 0
deriving DecidableEq, Repr

def FXModule.SIZE : Nat := 13

def FXModule.to_bytes (m : FXModule) : List Nat :=
  [m.header, m.enabled, m.type, m.q, m.position, m.peak, m.level] ++ m.reserved.take 6

def FXModule.from_bytes (data : List Nat) : FXModule :=
  let d := padTo FXModule.SIZE data
  { header := d.getD 0 0, enabled := d.getD 1 0, type := d.getD 2 0,
    q := d.getD 3 0, position := d.getD 4 0, peak := d.getD 5 0,
    level := d.getD 6 0, reserved := pySlice 7 13 d }

/-- Distortion / Overdrive module (11 bytes). -/
structure DistortionModule where
  header : Nat := 0
  enabled : Nat := 0
  type : Nat := 0
  volume : Nat := 0
  tone : Nat := 0
  gain : Nat := 0
  reserved : List Nat := List.replicate 5 0
deriving DecidableEq, Repr

def DistortionModule.SIZE : Nat := 11

def DistortionModule.to_bytes (m : DistortionModule) : List Nat :=
  [m.header, m.enabled, m.type, m.volume, m.tone, m.gain] ++ m.reserved.take 5

def DistortionModule.from_bytes (data : List Nat) : DistortionModule :=
  let d := padTo DistortionModule.SIZE data
  { header := d.getD 0 0, enabled := d.getD 1 0, type := d.getD 2 0,
    volume := d.getD 3 0, tone := d.getD 4 0, gain := d.getD 5 0,
    reserved := pySlice 6 11 d }

/-- Amp model module (17 bytes). -/
structure AmpModule where
  header : Nat := 0
  enabled : Nat := 0
  type : Nat := 0
  amp_gain : Nat := 0
  bass : Nat := 0
  mid : Nat := 0
  treble : Nat := 0
  presence : Nat := 0
  master : Nat := 0
  reserved : List Nat := List.replicate 8 0
deriving DecidableEq, Repr

def AmpModule.SIZE : Nat := 17

def AmpModule.to_bytes (m : AmpModule) : List Nat :=
  [m.header, m.enabled, m.type, m.amp_gain, m.bass, m.mid, m.treble,
   m.presence, m.master] ++ m.reserved.take 8

def AmpModule.from_bytes (data : List Nat) : AmpModule :=
  let d := padTo AmpModule.SIZE data
  { header := d.getD 0 0, enabled := d.getD 1 0, type := d.getD 2 0,
    amp_gain := d.getD 3 0, bass := d.getD 4 0, mid := d.getD 5 0,
    treble := d.getD 6 0, presence := d.getD 7 0, master := d.getD 8 0,
    reserved := pySlice 9 17 d }

/-- Cabinet simulation module (13 bytes). -/
structure CabModule where
  header : Nat := 0
  enabled : Nat := 0
  type : Nat := 0
  mic : Nat := 0
  center : Nat := 0
  distance : Nat := 0
  tube : Nat := 0
  reserved : List Nat := List.replicate 6 0
deriving DecidableEq, Repr

def CabModule.SIZE : Nat := 13

def CabModule.to_bytes (m : CabModule) : List Nat :=
  [m.header, m.enabled, m.type, m.mic, m.center, m.distance, m.tube] ++
    m.reserved.take 6

def CabModule.from_bytes (data : List Nat) : CabModule :=
  let d := padTo CabModule.SIZE data
  { header := d.getD 0 0, enabled := d.getD 1 0, type := d.getD 2 0,
    mic := d.getD 3 0, center := d.getD 4 0, distance := d.getD 5 0,
    tube := d.getD 6 0, reserved := pySlice 7 13 d }

/-- Noise gate module (11 bytes). -/
structure NoiseGateModule where
  header : Nat := 0
  enabled : Nat := 0
  type : Nat := 0
  attack : Nat := 0
  release : Nat := 0
  threshold : Nat := 0
  reserved : List Nat := List.replicate 5 0
deriving DecidableEq, Repr

def NoiseGateModule.SIZE : Nat := 11

def NoiseGateModule.to_bytes (m : NoiseGateModule) : List Nat :=
  [m.header, m.enabled, m.type, m.attack, m.release, m.threshold] ++
    m.reserved.take 5

def NoiseGateModule.from_bytes (data : List Nat) : NoiseGateModule :=
  let d := padTo NoiseGateModule.SIZE data
  { header := d.getD 0 0, enabled := d.getD 1 0, type := d.getD 2 0,
    attack := d.getD 3 0, release := d.getD 4 0, threshold := d.getD 5 0,
    reserved := pySlice 6 11 d }

/-- Equalizer module (23 bytes). -/
structure EQModule where
  header : Nat := 0
  enabled : Nat := 0
  type : Nat := 0
  bands : List Nat := List.replicate 6 0
  bands_extra : List Nat := List.replicate 6 0
  reserved : List Nat := List.replicate 8 0
deriving DecidableEq, Repr

def EQModule.SIZE : Nat := 23

def EQModule.to_bytes (m : EQModule) : List Nat :=
  [m.header, m.enabled, m.type] ++ m.bands.take 6 ++ m.bands_extra.take 6 ++
    m.reserved.take 8

def EQModule.from_bytes (data : List Nat) : EQModule :=
  let d := padTo EQModule.SIZE data
  { header := d.getD 0 0, enabled := d.getD 1 0, type := d.getD 2 0,
    bands := pySlice 3 9 d, bands_extra := pySlice 9 15 d,
    reserved := pySlice 15 23 d }

/-- Modulation module (15 bytes). -/
structure ModulationModule where
  header : Nat := 0
  enabled : Nat := 0
  type : Nat := 0
  rate : Nat := 0
  level : Nat := 0
  depth : Nat := 0
  param4 : Nat := 0
  param5 : Nat := 0
  reserved : List Nat := List.replicate 7 0
deriving DecidableEq, Repr

def ModulationModule.SIZE : Nat := 15

def ModulationModule.to_bytes (m : ModulationModule) : List Nat :=
  [m.header, m.enabled, m.type, m.rate, m.level, m.depth, m.param4, m.param5] ++
    m.reserved.take 7

def ModulationModule.from_bytes (data : List Nat) : ModulationModule :=
  let d := padTo ModulationModule.SIZE data
  { header := d.getD 0 0, enabled := d.getD 1 0, type := d.getD 2 0,
    rate := d.getD 3 0, level := d.getD 4 0, depth := d.getD 5 0,
    param4 := d.getD 6 0, param5 := d.getD 7 0, reserved := pySlice 8 15 d }

/-- Delay module (17 bytes); `time_ms` is 16-bit, stored little-endian at
bytes 5-6. -/
structure DelayModule where
  header : Nat := 0
  enabled : Nat := 0
  type : Nat := 0
  level : Nat := 0
  feedback : Nat := 0
  time_ms : Nat := 0
  subdivision : Nat := 0
  param5 : Nat := 0
  param6 : Nat := 0
  reserved : List Nat := List.replicate 7 0
deriving DecidableEq, Repr

def DelayModule.SIZE : Nat := 17

def DelayModule.to_bytes (m : DelayModule) : List Nat :=
  let time_lo := m.time_ms % 256
  let time_hi := (m.time_ms >>> 8) % 256
  [m.header, m.enabled, m.type, m.level, m.feedback, time_lo, time_hi,
   m.subdivision, m.param5, m.param6] ++ m.reserved.take 7

def DelayModule.from_bytes (data : List Nat) : DelayModule :=
  let d := padTo DelayModule.SIZE data
  { header := d.getD 0 0, enabled := d.getD 1 0, type := d.getD 2 0,
    level := d.getD 3 0, feedback := d.getD 4 0,
    time_ms := d.getD 5 0 ||| (d.getD 6 0 <<< 8),
    subdivision := d.getD 7 0, param5 := d.getD 8 0, param6 := d.getD 9 0,
    reserved := pySlice 10 17 d }

/-- Reverb module (13 bytes). -/
structure ReverbModule where
  header : Nat := 0
  enabled : Nat := 0
  type : Nat := 0
  pre_delay : Nat := 0
  level : Nat := 0
  decay : Nat := 0
  tone : Nat := 0
  reserved : List Nat := List.replicate 6 0
deriving DecidableEq, Repr

def ReverbModule.SIZE : Nat := 13

def ReverbModule.to_bytes (m : ReverbModule) : List Nat :=
  [m.header, m.enabled, m.type, m.pre_delay, m.level, m.decay, m.tone] ++
    m.reserved.take 6

def ReverbModule.from_bytes (data : List Nat) : ReverbModule :=
  let d := padTo ReverbModule.SIZE data
  { header := d.getD 0 0, enabled := d.getD 1 0, type := d.getD 2 0,
    pre_delay := d.getD 3 0, level := d.getD 4 0, decay := d.getD 5 0,
    tone := d.getD 6 0, reserved := pySlice 7 13 d }

/-! ### Preset (`models/preset.py`) -/

def PRESET_SIZE : Nat := 0x200

def OFF_EFFECT_ORDER : Nat := 0x00
def OFF_SIZE : Nat := 0x0A
def OFF_NAME : Nat := 0x0C
def OFF_FX : Nat := 0x1A
def OFF_OD : Nat := 0x27
def OFF_AMP : Nat := 0x32
def OFF_CAB : Nat := 0x43
def OFF_NS : Nat := 0x50
def OFF_EQ : Nat := 0x5B
def OFF_MOD : Nat := 0x72
def OFF_DELAY : Nat := 0x81
def OFF_REVERB : Nat := 0x92

/-- Python bytearray slice assignment `buf[a:b] = v` (for `a ≤ len(buf)`):
replaces the slice, shifting the tail when `len(v) ≠ b - a`. -/
def writeSlice (buf : List Nat) (a b : Nat) (v : List Nat) : List Nat :=
  buf.take a ++ v ++ buf.drop b

/-- Element-wise writes `buf[start+i] = vals[i] & 0xFF`, as in the effect-order
loop of `Preset.to_bytes`. -/
def writeList (buf : List Nat) (start : Nat) (vals : List Nat) : List Nat :=
  match vals with
  | [] => buf
  | v :: rest => writeList (buf.set start (v % 256)) (start + 1) rest

/-- Decoding of the 14-byte name field: stop at the first null byte, decode
ASCII with `errors="replace"` (name characters modelled by their code points). -/
def decodeName (bs : List Nat) : List Nat :=
  (bs.takeWhile (fun b => b != 0)).map (fun b => if b < 128 then b else 0xFFFD)

/-- A single device preset (512 bytes).  The `name` string is modelled as the
list of its character code points. -/
structure Preset where
  effect_order : List Nat := List.range 10
  name : List Nat := []
  fx : FXModule := {}
  od : DistortionModule := {}
  amp : AmpModule := {}
  cab : CabModule := {}
  ns : NoiseGateModule := {}
  eq : EQModule := {}
  mod : ModulationModule := {}
  delay : DelayModule := {}
  reverb : ReverbModule := {}
deriving DecidableEq, Repr

/-- `Preset.to_bytes`: serialize the preset to a 0x200-byte structure. -/
def Preset.to_bytes (p : Preset) : List Nat :=
  let buf := List.replicate PRESET_SIZE 0
  let buf := writeList buf OFF_EFFECT_ORDER (p.effect_order.take 10)
  let data_size := PRESET_SIZE - OFF_SIZE - 2
  let buf := buf.set OFF_SIZE ((data_size >>> 8) % 256)
  let buf := buf.set (OFF_SIZE + 1) (data_size % 256)
  let name_bytes := (p.name.map fun c => if c < 128 then c else 63).take 14
  let buf := writeSlice buf OFF_NAME (OFF_NAME + name_bytes.length) name_bytes
  let buf := writeSlice buf OFF_FX (OFF_FX + FXModule.SIZE) p.fx.to_bytes
  let buf := writeSlice buf OFF_OD (OFF_OD + DistortionModule.SIZE) p.od.to_bytes
  let buf := writeSlice buf OFF_AMP (OFF_AMP + AmpModule.SIZE) p.amp.to_bytes
  let buf := writeSlice buf OFF_CAB (OFF_CAB + CabModule.SIZE) p.cab.to_bytes
  let buf := writeSlice buf OFF_NS (OFF_NS + NoiseGateModule.SIZE) p.ns.to_bytes
  let buf := writeSlice buf OFF_EQ (OFF_EQ + EQModule.SIZE) p.eq.to_bytes
  let buf := writeSlice buf OFF_MOD (OFF_MOD + ModulationModule.SIZE) p.mod.to_bytes
  let buf := writeSlice buf OFF_DELAY (OFF_DELAY + DelayModule.SIZE) p.delay.to_bytes
  let buf := writeSlice buf OFF_REVERB (OFF_REVERB + ReverbModule.SIZE) p.reverb.to_bytes
  buf

/-- `Preset.from_bytes`: deserialize a preset from a 0x200-byte (or larger)
structure, implicitly zero-padding shorter buffers. -/
def Preset.from_bytes (data : List Nat) : Preset :=
  let d := padTo PRESET_SIZE data
  { effect_order := pySlice OFF_EFFECT_ORDER (OFF_EFFECT_ORDER + 10) d,
    name := decodeName (pySlice OFF_NAME (OFF_NAME + 14) d),
    fx := FXModule.from_bytes (pySlice OFF_FX (OFF_FX + FXModule.SIZE) d),
    od := DistortionModule.from_bytes (pySlice OFF_OD (OFF_OD + DistortionModule.SIZE) d),
    amp := AmpModule.from_bytes (pySlice OFF_AMP (OFF_AMP + AmpModule.SIZE) d),
    cab := CabModule.from_bytes (pySlice OFF_CAB (OFF_CAB + CabModule.SIZE) d),
    ns := NoiseGateModule.from_bytes (pySlice OFF_NS (OFF_NS + NoiseGateModule.SIZE) d),
    eq := EQModule.from_bytes (pySlice OFF_EQ (OFF_EQ + EQModule.SIZE) d),
    mod := ModulationModule.from_bytes (pySlice OFF_MOD (OFF_MOD + ModulationModule.SIZE) d),
    delay := DelayModule.from_bytes (pySlice OFF_DELAY (OFF_DELAY + DelayModule.SIZE) d),
    reverb := ReverbModule.from_bytes (pySlice OFF_REVERB (OFF_REVERB + ReverbModule.SIZE) d) }

/-! ### File containers (`models/file_formats.py`).  File I/O is abstracted:
export functions return the byte string written, import functions take the
byte string read. -/

def MO_FILE_SIZE : Nat := 0x800
def MO_PRESET_OFFSET : Nat := 0x200

/-- `export_mo`: allocate 0x800 zero bytes and write the serialized preset at
offset 0x200; the result is the file content written. -/
def export_mo (preset : Preset) : List Nat :=
  let buf := List.replicate MO_FILE_SIZE 0
  writeSlice buf MO_PRESET_OFFSET (MO_PRESET_OFFSET + PRESET_SIZE) preset.to_bytes

/-- `import_mo`: require at least `0x200 + 512` bytes (else `ValueError`),
then decode the preset from that byte range. -/
def import_mo (data : List Nat) : Except String Preset :=
  if data.length < MO_PRESET_OFFSET + PRESET_SIZE then
    Except.error ("File too small for .mo format: " ++ toString data.length ++ " bytes")
  else
    Except.ok (Preset.from_bytes (pySlice MO_PRESET_OFFSET (MO_PRESET_OFFSET + PRESET_SIZE) data))

/-! ### Basic lemmas -/

lemma crcRounds_lt (n crc : Nat) (h : crc < 65536) : crcRounds n crc < 65536 := by
  induction n generalizing crc with
  | zero => simpa [crcRounds] using h
  | succ n ih =>
    rw [crcRounds]
    apply ih
    split
    · have h2 : crc / 2 < 2 ^ 16 := by omega
      have h3 : (0x8540 : Nat) < 2 ^ 16 := by norm_num
      have := Nat.xor_lt_two_pow h2 h3
      omega
    · omega

lemma crc16_foldl_lt (data : List Nat) (init : Nat) (hinit : init < 65536)
    (h : ∀ b ∈ data, b < 256) :
    data.foldl (fun crc b => crcRounds 8 (crc ^^^ b)) init < 65536 := by
  induction data generalizing init with
  | nil => simpa using hinit
  | cons b rest ih =>
    simp only [List.foldl_cons]
    refine ih _ (crcRounds_lt _ _ ?_) (fun x hx => h x (List.mem_cons_of_mem _ hx))
    have hb : b < 2 ^ 16 := by
      have := h b (List.mem_cons_self _ _)
      omega
    have hi : init < 2 ^ 16 := by omega
    have := Nat.xor_lt_two_pow hi hb
    omega

/-- The modelled checksum always fits in 16 bits on byte-valued input. -/
lemma crc16_lt (data : List Nat) (h : ∀ b ∈ data, b < 256) : crc16 data < 65536 :=
  crc16_foldl_lt data 0xFFFF (by norm_num) h

lemma fromBytesLE_toBytesLE2 (n : Nat) (h : n < 65536) :
    fromBytesLE (toBytesLE2 n) = n := by
  simp only [toBytesLE2, fromBytesLE, List.foldr_cons, List.foldr_nil]
  omega

lemma fromBytesLE_pair (a b : Nat) : fromBytesLE [a, b] = a + 256 * b := by
  simp only [fromBytesLE, List.foldr_cons, List.foldr_nil]
  ring

/-- Normal form of `build_frame` as an explicit cons chain. -/
lemma build_frame_eq (cmd : Nat) (payload : List Nat) :
    build_frame cmd payload =
      (payload.length + 7) :: 0xAA :: 0x55 :: ((payload.length + 1) % 256) ::
        ((payload.length + 1) / 256 % 256) :: cmd ::
        (payload ++ (crc16 (cmd :: payload) % 256) ::
          (crc16 (cmd :: payload) / 256 % 256) ::
          List.replicate (56 - payload.length) 0) := by
  have hl : (payload ++ [crc16 (cmd :: payload) % 256,
      crc16 (cmd :: payload) / 256 % 256]).length = payload.length + 2 := by simp
  simp only [build_frame, PREAMBLE, toBytesLE2, HID_REPORT_SIZE,
    List.cons_append, List.nil_append, List.append_assoc, List.length_cons, hl]
  have h7 : payload.length + 2 + 1 + 1 + 1 + 1 + 1 = payload.length + 7 := by omega
  rw [h7]
  have h56 : 64 - 1 - (payload.length + 7) = 56 - payload.length := by omega
  rw [h56]

/-- C1: for every command byte and payload with `1 + len(payload) ≤ 57`,
parsing the report built for them recovers the original frame:
`parse_frame (build_frame cmd payload) = Frame{cmd, payload}`. -/
theorem claim_C1 (cmd : Nat) (payload : List Nat) (hcmd : cmd < 256)
    (hpay : ∀ b ∈ payload, b < 256) (hlen : 1 + payload.length ≤ 57) :
    parse_frame (build_frame cmd payload) = some ⟨cmd, payload⟩ := by
  have hbody : ∀ b ∈ (cmd :: payload), b < 256 := by
    intro b hb
    rcases List.mem_cons.mp hb with h | h
    · omega
    · exact hpay b h
  have hc : crc16 (cmd :: payload) < 65536 := crc16_lt _ hbody
  have hs0 : (payload.length + 1) % 256 = payload.length + 1 := by omega
  have hs1 : (payload.length + 1) / 256 % 256 = 0 := by
    have : (payload.length + 1) / 256 = 0 := by omega
    simp [this]
  rw [build_frame_eq, hs0, hs1]
  set c := crc16 (cmd :: payload) with hcdef
  set R := (payload.length + 7) :: 0xAA :: 0x55 :: (payload.length + 1) :: 0 :: cmd ::
    (payload ++ c % 256 :: c / 256 % 256 :: List.replicate (56 - payload.length) 0)
    with hR
  have e_len : R.length = 64 := by
    simp [hR, List.length_append]
    omega
  have e_getD0 : R.getD 0 0 = payload.length + 7 := by simp [hR]
  have e_getD5 : R.getD 5 0 = cmd := by simp [hR]
  have e_slice13 : pySlice 1 3 R = PREAMBLE := by simp [hR, pySlice, PREAMBLE]
  have e_slice35 : pySlice 3 5 R = [payload.length + 1, 0] := by
    simp [hR, pySlice]
  have e_from : fromBytesLE [payload.length + 1, 0] = payload.length + 1 := by
    simp [fromBytesLE_pair]
  have e_drop6 : R.drop 6 = payload ++ c % 256 :: c / 256 % 256 ::
      List.replicate (56 - payload.length) 0 := by simp [hR]
  have e_payload : pySlice 6 (5 + (payload.length + 1)) R = payload := by
    have h1 : 5 + (payload.length + 1) - 6 = payload.length := by omega
    rw [pySlice, e_drop6, h1]
    exact List.take_left' rfl
  have e_body : pySlice 5 (5 + (payload.length + 1)) R = cmd :: payload := by
    have h1 : 5 + (payload.length + 1) - 5 = payload.length + 1 := by omega
    have h2 : R.drop 5 = cmd :: (payload ++ c % 256 :: c / 256 % 256 ::
        List.replicate (56 - payload.length) 0) := by simp [hR]
    rw [pySlice, h2, h1, List.take_succ_cons]
    congr 1
    exact List.take_left' rfl
  have e_cksum : pySlice (5 + (payload.length + 1)) (5 + (payload.length + 1) + 2) R =
      [c % 256, c / 256 % 256] := by
    have h1 : 5 + (payload.length + 1) = 6 + payload.length := by omega
    have h2 : 5 + (payload.length + 1) + 2 - (5 + (payload.length + 1)) = 2 := by omega
    rw [pySlice, h2, h1, ← List.drop_drop, e_drop6, List.drop_left' rfl]
    rfl
  have e_from2 : fromBytesLE [c % 256, c / 256 % 256] = c := by
    rw [fromBytesLE_pair]
    omega
  rw [parse_frame]
  rw [if_neg (by rw [e_len]; norm_num)]
  rw [if_neg (by rw [e_getD0]; omega)]
  rw [if_neg (by rw [e_slice13]; simp)]
  rw [e_slice35, e_from]
  rw [if_neg (by omega)]
  rw [e_getD5, e_payload, e_body, e_cksum, e_from2]
  simp [← hcdef]

/-- Witness for C1 at a concrete input. -/
theorem claim_C1_witness :
    parse_frame (build_frame 0xA6 [0x02]) = some ⟨0xA6, [0x02]⟩ :=
  claim_C1 0xA6 [0x02] (by norm_num) (by decide) (by norm_num)

/-- Every report produced by the chunking loop is exactly 64 bytes. -/
lemma chunkReports_mem_length (msg : List Nat) :
    ∀ r ∈ chunkReports msg, r.length = 64 := by
  generalize hn : msg.length = N
  induction N using Nat.strong_induction_on generalizing msg with
  | _ N ih =>
    intro r hr
    by_cases hmsg : msg = []
    · rw [chunkReports, dif_pos hmsg] at hr
      simp at hr
    · rw [chunkReports, dif_neg hmsg] at hr
      rcases List.mem_cons.mp hr with h | h
      · subst h
        simp only [List.length_cons, List.length_append, List.length_replicate,
          List.length_take]
        omega
      · have hpos : 0 < msg.length := List.length_pos.mpr hmsg
        exact ih (msg.drop 63).length (by simp; omega) _ rfl r h

/-- C10: the checksum of the empty byte string is 0xFFFF, the checksum is
deterministic, and the checksum of [0xA6, 0x02] is 0x6865.  (The checksum
engine is modelled from the spec, `utils/crc.py` being absent from the
sources; the model satisfies exactly the constraints the spec pins down.) -/
theorem claim_C10 :
    crc16 [] = 0xFFFF ∧
    (∀ a b : List Nat, a = b → crc16 a = crc16 b) ∧
    crc16 [0xA6, 0x02] = 0x6865 :=
  ⟨rfl, fun _ _ h => by rw [h], by decide⟩

/-- Witness for C10: determinism applied at a concrete input. -/
theorem claim_C10_witness : crc16 [0x10] = crc16 [0x10] :=
  claim_C10.2.1 [0x10] [0x10] rfl

/-- C4 counterexample: `build_frame` applied to a 57-byte payload produces a
65-byte report (Python pads with `b"\x00" * (-1) = b""` and the oversized
frame leaks through), so not every report built by `build_frame` is 64 bytes. -/
theorem claim_C4_counterexample :
    ¬ ((build_frame 0 (List.replicate 57 0)).length = 64) := by
  rw [build_frame_eq]
  simp only [List.length_cons, List.length_append, List.length_replicate]
  omega

/-- C4 (amended): every report of `build_chunked_frames` is exactly 64 bytes
for every command and payload, and `build_frame` returns exactly 64 bytes
whenever the logical frame fits, i.e. whenever `1 + len(payload) ≤ 57`. -/
theorem claim_C4_amended (cmd : Nat) (payload : List Nat) :
    (1 + payload.length ≤ 57 → (build_frame cmd payload).length = 64) ∧
    (∀ r ∈ build_chunked_frames cmd payload, r.length = 64) := by
  have hbf : 1 + payload.length ≤ 57 → (build_frame cmd payload).length = 64 := by
    intro h
    rw [build_frame_eq]
    simp only [List.length_cons, List.length_append, List.length_replicate]
    omega
  refine ⟨hbf, ?_⟩
  intro r hr
  simp only [build_chunked_frames] at hr
  split at hr
  · next hle =>
      simp only [List.mem_singleton] at hr
      subst hr
      apply hbf
      simp only [PREAMBLE, toBytesLE2, HID_REPORT_SIZE, List.length_append,
        List.length_cons, List.length_nil] at hle
      omega
  · exact chunkReports_mem_length _ r hr

/-- Witness for C4 (amended) at a concrete input. -/
theorem claim_C4_witness :
    (build_frame 0xA6 [0x02]).length = 64 ∧
    (∀ r ∈ build_chunked_frames 0xA6 [0x02], r.length = 64) :=
  ⟨(claim_C4_amended 0xA6 [0x02]).1 (by norm_num), (claim_C4_amended 0xA6 [0x02]).2⟩

/-- C6: `parse_frame` returns no frame exactly when the report is shorter than
8 bytes, or the declared meaningful length (byte 0) is below 7, or bytes 1-2
differ from the preamble, or the little-endian body size (bytes 3-4) is below
1, or the recomputed checksum over bytes `[5, 5+body_size)` differs from the
two trailing checksum bytes; otherwise it returns the frame with command byte
5 and payload `bytes[6 .. 5+body_size]`.  It never fails otherwise. -/
theorem claim_C6 (data : List Nat) :
    (parse_frame data = none ↔
      (data.length < 8 ∨ data.getD 0 0 < 7 ∨ pySlice 1 3 data ≠ PREAMBLE ∨
        fromBytesLE (pySlice 3 5 data) < 1 ∨
        crc16 (pySlice 5 (5 + fromBytesLE (pySlice 3 5 data)) data) ≠
          fromBytesLE (pySlice (5 + fromBytesLE (pySlice 3 5 data))
            (5 + fromBytesLE (pySlice 3 5 data) + 2) data))) ∧
    (¬ (data.length < 8 ∨ data.getD 0 0 < 7 ∨ pySlice 1 3 data ≠ PREAMBLE ∨
        fromBytesLE (pySlice 3 5 data) < 1 ∨
        crc16 (pySlice 5 (5 + fromBytesLE (pySlice 3 5 data)) data) ≠
          fromBytesLE (pySlice (5 + fromBytesLE (pySlice 3 5 data))
            (5 + fromBytesLE (pySlice 3 5 data) + 2) data)) →
      parse_frame data =
        some ⟨data.getD 5 0, pySlice 6 (5 + fromBytesLE (pySlice 3 5 data)) data⟩) := by
  rw [parse_frame]
  split_ifs <;> simp_all <;> omega

/-- Witness for C6: the acceptance branch at a concrete valid report. -/
theorem claim_C6_witness :
    parse_frame [8, 0xAA, 0x55, 2, 0, 0xA6, 0x02, 101, 104] =
      some ⟨0xA6, [0x02]⟩ :=
  (claim_C6 [8, 0xAA, 0x55, 2, 0, 0xA6, 0x02, 101, 104]).2 (by decide)

/-- Reassembling the reports emitted by the chunking loop restores the
original message (generalized over the Python loop accumulator). -/
lemma assembleFold_chunkReports (msg : List Nat) :
    ∀ acc, assembleFold acc (chunkReports msg) = acc ++ msg := by
  generalize hn : msg.length = N
  induction N using Nat.strong_induction_on generalizing msg with
  | _ N ih =>
    intro acc
    by_cases hmsg : msg = []
    · rw [chunkReports, dif_pos hmsg, hmsg]
      simp [assembleFold]
    · rw [chunkReports, dif_neg hmsg]
      have hpos : 0 < msg.length := List.length_pos.mpr hmsg
      rw [assembleFold]
      rw [if_neg (by simp)]
      have hgetD : ((msg.take 63).length :: (msg.take 63 ++
          List.replicate (63 - (msg.take 63).length) 0)).getD 0 0 =
          (msg.take 63).length := by simp
      rw [hgetD]
      have hslice : pySlice 1 (1 + (msg.take 63).length)
          ((msg.take 63).length :: (msg.take 63 ++
            List.replicate (63 - (msg.take 63).length) 0)) = msg.take 63 := by
        rw [pySlice]
        simp only [List.drop_succ_cons, List.drop_zero, Nat.add_sub_cancel_left]
        exact List.take_left' rfl
      rw [hslice]
      rw [ih (msg.drop 63).length (by simp; omega) _ rfl (acc ++ msg.take 63)]
      simp [List.append_assoc]

/-- The list of reports emitted by the chunking loop for a message longer
than 63 bytes has at least two elements. -/
lemma chunkReports_two_le (msg : List Nat) (h : 63 < msg.length) :
    1 < (chunkReports msg).length := by
  have hmsg : msg ≠ [] := by
    intro hc
    subst hc
    simp at h
  rw [chunkReports, dif_neg hmsg]
  have hdrop : msg.drop 63 ≠ [] := by
    intro hc
    have := congrArg List.length hc
    simp at this
    omega
  rw [chunkReports, dif_neg hdrop]
  simp

/-- Normal form of the full encoded message built by `build_chunked_frames`. -/
lemma full_message_eq (cmd : Nat) (payload : List Nat) :
    PREAMBLE ++ toBytesLE2 (cmd :: payload).length ++ (cmd :: payload) ++
      toBytesLE2 (crc16 (cmd :: payload)) =
    0xAA :: 0x55 :: ((payload.length + 1) % 256) ::
      ((payload.length + 1) / 256 % 256) :: cmd ::
      (payload ++ [crc16 (cmd :: payload) % 256,
        crc16 (cmd :: payload) / 256 % 256]) := by
  simp [PREAMBLE, toBytesLE2, List.append_assoc]

/-- C3: `build_chunked_frames` returns a single report identical to
`build_frame` whenever the encoded message (preamble, size, body, checksum —
`7 + len(payload)` bytes) fits within 63 bytes; for a payload too large for
one frame it returns more than one report, each exactly 64 bytes, and
`parse_chunked_frames` on the full list in emission order recovers the
original command and payload. -/
theorem claim_C3 (cmd : Nat) (payload : List Nat) (hcmd : cmd < 256)
    (hpay : ∀ b ∈ payload, b < 256) (hsize : payload.length + 1 < 65536) :
    (7 + payload.length ≤ 63 →
      build_chunked_frames cmd payload = [build_frame cmd payload]) ∧
    (63 < 7 + payload.length →
      1 < (build_chunked_frames cmd payload).length ∧
      (∀ r ∈ build_chunked_frames cmd payload, r.length = 64) ∧
      parse_chunked_frames (build_chunked_frames cmd payload) =
        some ⟨cmd, payload⟩) := by
  have hbody : ∀ b ∈ (cmd :: payload), b < 256 := by
    intro b hb
    rcases List.mem_cons.mp hb with h | h
    · omega
    · exact hpay b h
  have hc : crc16 (cmd :: payload) < 65536 := crc16_lt _ hbody
  set c := crc16 (cmd :: payload) with hcdef
  set FM := 0xAA :: 0x55 :: ((payload.length + 1) % 256) ::
      ((payload.length + 1) / 256 % 256) :: cmd ::
      (payload ++ [c % 256, c / 256 % 256]) with hFM
  have hFMlen : FM.length = 7 + payload.length := by
    rw [hFM]
    simp only [List.length_cons, List.length_append, List.length_cons,
      List.length_nil]
    omega
  have hbc : build_chunked_frames cmd payload =
      if FM.length ≤ 63 then [build_frame cmd payload] else chunkReports FM := by
    rw [build_chunked_frames]
    rw [full_message_eq, ← hcdef, ← hFM]
    rfl
  constructor
  · intro h
    rw [hbc, if_pos (by omega)]
  · intro h
    rw [hbc, if_neg (by omega)]
    refine ⟨chunkReports_two_le FM (by omega), chunkReports_mem_length FM, ?_⟩
    rw [parse_chunked_frames]
    rw [assembleFold_chunkReports FM [], List.nil_append]
    have e_slice02 : pySlice 0 2 FM = PREAMBLE := by
      rw [hFM]
      simp [pySlice, PREAMBLE]
    have e_slice24 : pySlice 2 4 FM =
        [(payload.length + 1) % 256, (payload.length + 1) / 256 % 256] := by
      rw [hFM]
      simp [pySlice]
    have e_from : fromBytesLE [(payload.length + 1) % 256,
        (payload.length + 1) / 256 % 256] = payload.length + 1 := by
      rw [fromBytesLE_pair]
      omega
    have e_getD4 : FM.getD 4 0 = cmd := by
      rw [hFM]
      simp
    have e_drop5 : FM.drop 5 = payload ++ [c % 256, c / 256 % 256] := by
      rw [hFM]
      simp
    have e_payload : pySlice 5 (4 + (payload.length + 1)) FM = payload := by
      have h1 : 4 + (payload.length + 1) - 5 = payload.length := by omega
      rw [pySlice, e_drop5, h1]
      exact List.take_left' rfl
    have e_body : pySlice 4 (4 + (payload.length + 1)) FM = cmd :: payload := by
      have h1 : 4 + (payload.length + 1) - 4 = payload.length + 1 := by omega
      have h2 : FM.drop 4 = cmd :: (payload ++ [c % 256, c / 256 % 256]) := by
        rw [hFM]
        simp
      rw [pySlice, h2, h1, List.take_succ_cons]
      congr 1
      exact List.take_left' rfl
    have e_cksum : pySlice (4 + (payload.length + 1))
        (4 + (payload.length + 1) + 2) FM = [c % 256, c / 256 % 256] := by
      have h1 : 4 + (payload.length + 1) = 5 + payload.length := by omega
      have h2 : 4 + (payload.length + 1) + 2 - (4 + (payload.length + 1)) = 2 := by
        omega
      rw [pySlice, h2, h1, ← List.drop_drop, e_drop5, List.drop_left' rfl]
      rfl
    have e_from2 : fromBytesLE [c % 256, c / 256 % 256] = c := by
      rw [fromBytesLE_pair]
      omega
    rw [if_neg (by omega)]
    rw [if_neg (by rw [e_slice02]; simp)]
    rw [e_slice24, e_from]
    rw [if_neg (by omega)]
    rw [e_getD4, e_payload, e_body, e_cksum, e_from2]
    simp [← hcdef]

/-- Witness for C3: the single-frame case at a small payload and the chunked
round-trip at a 200-byte payload. -/
theorem claim_C3_witness :
    build_chunked_frames 0xA6 [0x02] = [build_frame 0xA6 [0x02]] ∧
    parse_chunked_frames (build_chunked_frames 0x83 (List.replicate 200 7)) =
      some ⟨0x83, List.replicate 200 7⟩ := by
  constructor
  · exact (claim_C3 0xA6 [0x02] (by norm_num) (by decide) (by norm_num)).1
      (by norm_num)
  · exact ((claim_C3 0x83 (List.replicate 200 7) (by norm_num)
      (by intro b hb; rw [List.eq_of_mem_replicate hb]; norm_num)
      (by rw [List.length_replicate]; norm_num)).2
        (by rw [List.length_replicate]; norm_num)).2.2

/-- C5 (code-bug evidence): `parse_response` on a frame whose command byte is
not a member of the `Command` enumeration raises `ValueError` (from
`Command(frame.command)`), modelled as `Except.error`, instead of returning
the untyped frame as its own contract, the spec and the claim state; for an
enumeration member with no registered parser it does return the untyped
frame. -/
theorem claim_C5_code_bug :
    parse_response ⟨0x00, []⟩ = Except.error "0 is not a valid Command" ∧
    parse_response ⟨0x82, [1, 2]⟩ = Except.ok (ParsedMessage.raw ⟨0x82, [1, 2]⟩) :=
  ⟨rfl, rfl⟩

/-- The dictionary lookup on module names succeeds exactly for the nine known
module names. -/
lemma lookup_module_isSome_iff (module : String) :
    (MODULE_COMMAND_MAP.lookup module).isSome = true ↔
      module ∈ ["fx", "od", "amp", "cab", "ns", "eq", "mod", "delay", "reverb"] := by
  by_cases h1 : module = "fx"
  · subst h1; decide
  by_cases h2 : module = "od"
  · subst h2; decide
  by_cases h3 : module = "amp"
  · subst h3; decide
  by_cases h4 : module = "cab"
  · subst h4; decide
  by_cases h5 : module = "ns"
  · subst h5; decide
  by_cases h6 : module = "eq"
  · subst h6; decide
  by_cases h7 : module = "mod"
  · subst h7; decide
  by_cases h8 : module = "delay"
  · subst h8; decide
  by_cases h9 : module = "reverb"
  · subst h9; decide
  have e1 : (module == "fx") = false := beq_eq_false_iff_ne.mpr h1
  have e2 : (module == "od") = false := beq_eq_false_iff_ne.mpr h2
  have e3 : (module == "amp") = false := beq_eq_false_iff_ne.mpr h3
  have e4 : (module == "cab") = false := beq_eq_false_iff_ne.mpr h4
  have e5 : (module == "ns") = false := beq_eq_false_iff_ne.mpr h5
  have e6 : (module == "eq") = false := beq_eq_false_iff_ne.mpr h6
  have e7 : (module == "mod") = false := beq_eq_false_iff_ne.mpr h7
  have e8 : (module == "delay") = false := beq_eq_false_iff_ne.mpr h8
  have e9 : (module == "reverb") = false := beq_eq_false_iff_ne.mpr h9
  simp [ MODULE_COMMAND_MAP, List.lookup, e1, e2, e3, e4, e5, e6, e7, e8, e9,
    h1, h2, h3, h4, h5, h6, h7, h8, h9]

/-- C8: every builder accepts exactly its in-range inputs, returning the
encoded report(s), and signals an error (building nothing) otherwise: slots
0-199 for select/read/store, 512-byte data for store, the nine known module
names, values 0-255 and byte-sized parameter indices for effect parameters
(the index bound is enforced by the payload byte construction rather than an
explicit check), and volumes 0-100. -/
theorem claim_C8 :
    (∀ slot : Int, (∃ bytes, build_select_preset slot = Except.ok bytes) ↔
      0 ≤ slot ∧ slot ≤ 199) ∧
    (∀ slot : Int, (∃ bytes, build_read_preset slot = Except.ok bytes) ↔
      0 ≤ slot ∧ slot ≤ 199) ∧
    (∀ (slot : Int) (preset_data : List Nat),
      (∃ frames, build_store_preset slot preset_data = Except.ok frames) ↔
      0 ≤ slot ∧ slot ≤ 199 ∧ preset_data.length = 512) ∧
    (∀ (module : String) (param_index value : Int),
      (∃ bytes, build_effect_param module param_index value = Except.ok bytes) ↔
      (module ∈ ["fx", "od", "amp", "cab", "ns", "eq", "mod", "delay", "reverb"] ∧
        0 ≤ value ∧ value ≤ 255 ∧ 0 ≤ param_index ∧ param_index ≤ 255)) ∧
    (∀ volume : Int, (∃ bytes, build_set_volume volume = Except.ok bytes) ↔
      0 ≤ volume ∧ volume ≤ 100) := by
  refine ⟨?_, ?_, ?_, ?_, ?_⟩
  · intro slot
    unfold build_select_preset
    split_ifs with h <;> simp_all
  · intro slot
    unfold build_read_preset
    split_ifs with h <;> simp_all
  · intro slot preset_data
    unfold build_store_preset
    split_ifs with h h2 <;> simp_all
  · intro module param_index value
    have hmem := lookup_module_isSome_iff module
    unfold build_effect_param
    cases hlk : MODULE_COMMAND_MAP.lookup module with
    | none =>
        rw [hlk] at hmem
        simp only [Option.isSome_none, Bool.false_eq_true, false_iff] at hmem
        simp [hmem]
    | some cmdId =>
        rw [hlk] at hmem
        simp only [Option.isSome_some, true_iff] at hmem
        split_ifs with h h2 <;> simp_all
  · intro volume
    unfold build_set_volume
    split_ifs with h <;> simp_all

/-- Witness for C8: the select-preset characterization at the boundary input
200 and the effect-parameter characterization at an out-of-byte-range
parameter index. -/
theorem claim_C8_witness :
    ((∃ bytes, build_select_preset 200 = Except.ok bytes) ↔
      0 ≤ (200 : Int) ∧ (200 : Int) ≤ 199) ∧
    ((∃ bytes, build_effect_param "fx" 300 0 = Except.ok bytes) ↔
      ("fx" ∈ ["fx", "od", "amp", "cab", "ns", "eq", "mod", "delay", "reverb"] ∧
        0 ≤ (0 : Int) ∧ (0 : Int) ≤ 255 ∧ 0 ≤ (300 : Int) ∧ (300 : Int) ≤ 255)) :=
  ⟨claim_C8.1 200, claim_C8.2.2.2.1 "fx" 300 0⟩

/-! ### Validity of module and preset values: field values fit in their byte
ranges and the raw list-valued fields have their declared lengths (in Python
these are enforced by the `bytes` type and the default factories). -/

def FXModule.Valid (m : FXModule) : Prop :=
  m.header < 256 ∧ m.enabled < 256 ∧ m.type < 256 ∧ m.q < 256 ∧
  m.position < 256 ∧ m.peak < 256 ∧ m.level < 256 ∧ m.reserved.length = 6

def DistortionModule.Valid (m : DistortionModule) : Prop :=
  m.header < 256 ∧ m.enabled < 256 ∧ m.type < 256 ∧ m.volume < 256 ∧
  m.tone < 256 ∧ m.gain < 256 ∧ m.reserved.length = 5

def AmpModule.Valid (m : AmpModule) : Prop :=
  m.header < 256 ∧ m.enabled < 256 ∧ m.type < 256 ∧ m.amp_gain < 256 ∧
  m.bass < 256 ∧ m.mid < 256 ∧ m.treble < 256 ∧ m.presence < 256 ∧
  m.master < 256 ∧ m.reserved.length = 8

def CabModule.Valid (m : CabModule) : Prop :=
  m.header < 256 ∧ m.enabled < 256 ∧ m.type < 256 ∧ m.mic < 256 ∧
  m.center < 256 ∧ m.distance < 256 ∧ m.tube < 256 ∧ m.reserved.length = 6

def NoiseGateModule.Valid (m : NoiseGateModule) : Prop :=
  m.header < 256 ∧ m.enabled < 256 ∧ m.type < 256 ∧ m.attack < 256 ∧
  m.release < 256 ∧ m.threshold < 256 ∧ m.reserved.length = 5

def EQModule.Valid (m : EQModule) : Prop :=
  m.header < 256 ∧ m.enabled < 256 ∧ m.type < 256 ∧
  m.bands.length = 6 ∧ (∀ b ∈ m.bands, b < 256) ∧
  m.bands_extra.length = 6 ∧ (∀ b ∈ m.bands_extra, b < 256) ∧
  m.reserved.length = 8

def ModulationModule.Valid (m : ModulationModule) : Prop :=
  m.header < 256 ∧ m.enabled < 256 ∧ m.type < 256 ∧ m.rate < 256 ∧
  m.level < 256 ∧ m.depth < 256 ∧ m.param4 < 256 ∧ m.param5 < 256 ∧
  m.reserved.length = 7

def DelayModule.Valid (m : DelayModule) : Prop :=
  m.header < 256 ∧ m.enabled < 256 ∧ m.type < 256 ∧ m.level < 256 ∧
  m.feedback < 256 ∧ m.time_ms < 65536 ∧ m.subdivision < 256 ∧
  m.param5 < 256 ∧ m.param6 < 256 ∧ m.reserved.length = 7

def ReverbModule.Valid (m : ReverbModule) : Prop :=
  m.header < 256 ∧ m.enabled < 256 ∧ m.type < 256 ∧ m.pre_delay < 256 ∧
  m.level < 256 ∧ m.decay < 256 ∧ m.tone < 256 ∧ m.reserved.length = 6

def Preset.Valid (p : Preset) : Prop :=
  p.effect_order.length = 10 ∧ (∀ b ∈ p.effect_order, b < 256) ∧
  p.name.length ≤ 14 ∧ (∀ c ∈ p.name, 0 < c ∧ c < 128) ∧
  p.fx.Valid ∧ p.od.Valid ∧ p.amp.Valid ∧ p.cab.Valid ∧ p.ns.Valid ∧
  p.eq.Valid ∧ p.mod.Valid ∧ p.delay.Valid ∧ p.reverb.Valid

instance (m : FXModule) : Decidable m.Valid := by
  unfold FXModule.Valid
  infer_instance

instance (m : DistortionModule) : Decidable m.Valid := by
  unfold DistortionModule.Valid
  infer_instance

instance (m : AmpModule) : Decidable m.Valid := by
  unfold AmpModule.Valid
  infer_instance

instance (m : CabModule) : Decidable m.Valid := by
  unfold CabModule.Valid
  infer_instance

instance (m : NoiseGateModule) : Decidable m.Valid := by
  unfold NoiseGateModule.Valid
  infer_instance

instance (m : EQModule) : Decidable m.Valid := by
  unfold EQModule.Valid
  infer_instance

instance (m : ModulationModule) : Decidable m.Valid := by
  unfold ModulationModule.Valid
  infer_instance

instance (m : DelayModule) : Decidable m.Valid := by
  unfold DelayModule.Valid
  infer_instance

instance (m : ReverbModule) : Decidable m.Valid := by
  unfold ReverbModule.Valid
  infer_instance

instance (p : Preset) : Decidable p.Valid := by
  unfold Preset.Valid
  infer_instance

/-! ### Module round trips and serialized lengths -/

lemma fx_from_to (m : FXModule) (h : m.reserved.length = 6) :
    FXModule.from_bytes m.to_bytes = m := by
  obtain ⟨header, enabled, type, q, position, peak, level, reserved⟩ := m
  simp only at h
  have htake : reserved.take 6 = reserved := List.take_of_length_le (by omega)
  rw [FXModule.to_bytes]
  simp only [htake]
  rw [FXModule.from_bytes]
  have hlen : ([header, enabled, type, q, position, peak, level] ++ reserved).length = 13 := by
    simp [h]
  rw [padTo, if_neg (by rw [hlen]; norm_num [FXModule.SIZE])]
  simp [pySlice, List.getD, htake,
    List.drop_left' (by simp :
      ([header, enabled, type, q, position, peak, level] : List Nat).length = 7)]

lemma fx_to_bytes_length (m : FXModule) (h : m.reserved.length = 6) :
    m.to_bytes.length = 13 := by
  simp [FXModule.to_bytes, List.length_append, List.length_take, h]

lemma od_from_to (m : DistortionModule) (h : m.reserved.length = 5) :
    DistortionModule.from_bytes m.to_bytes = m := by
  obtain ⟨header, enabled, type, volume, tone, gain, reserved⟩ := m
  simp only at h
  have htake : reserved.take 5 = reserved := List.take_of_length_le (by omega)
  rw [DistortionModule.to_bytes]
  simp only [htake]
  rw [DistortionModule.from_bytes]
  have hlen : ([header, enabled, type, volume, tone, gain] ++ reserved).length = 11 := by
    simp [h]
  rw [padTo, if_neg (by rw [hlen]; norm_num [DistortionModule.SIZE])]
  simp [pySlice, List.getD, htake,
    List.drop_left' (by simp :
      ([header, enabled, type, volume, tone, gain] : List Nat).length = 6)]

lemma od_to_bytes_length (m : DistortionModule)
    (h : m.reserved.length = 5) : m.to_bytes.length = 11 := by
  simp [DistortionModule.to_bytes, List.length_append, List.length_take, h]

lemma amp_from_to (m : AmpModule) (h : m.reserved.length = 8) :
    AmpModule.from_bytes m.to_bytes = m := by
  obtain ⟨header, enabled, type, amp_gain, bass, mid, treble, presence, master,
    reserved⟩ := m
  simp only at h
  have htake : reserved.take 8 = reserved := List.take_of_length_le (by omega)
  rw [AmpModule.to_bytes]
  simp only [htake]
  rw [AmpModule.from_bytes]
  have hlen : ([header, enabled, type, amp_gain, bass, mid, treble, presence,
      master] ++ reserved).length = 17 := by
    simp [h]
  rw [padTo, if_neg (by rw [hlen]; norm_num [AmpModule.SIZE])]
  simp [pySlice, List.getD, htake,
    List.drop_left' (by simp :
      ([header, enabled, type, amp_gain, bass, mid, treble, presence,
        master] : List Nat).length = 9)]

lemma amp_to_bytes_length (m : AmpModule) (h : m.reserved.length = 8) :
    m.to_bytes.length = 17 := by
  simp [AmpModule.to_bytes, List.length_append, List.length_take, h]

lemma cab_from_to (m : CabModule) (h : m.reserved.length = 6) :
    CabModule.from_bytes m.to_bytes = m := by
  obtain ⟨header, enabled, type, mic, center, distance, tube, reserved⟩ := m
  simp only at h
  have htake : reserved.take 6 = reserved := List.take_of_length_le (by omega)
  rw [CabModule.to_bytes]
  simp only [htake]
  rw [CabModule.from_bytes]
  have hlen : ([header, enabled, type, mic, center, distance, tube] ++
      reserved).length = 13 := by
    simp [h]
  rw [padTo, if_neg (by rw [hlen]; norm_num [CabModule.SIZE])]
  simp [pySlice, List.getD, htake,
    List.drop_left' (by simp :
      ([header, enabled, type, mic, center, distance, tube] : List Nat).length = 7)]

lemma cab_to_bytes_length (m : CabModule) (h : m.reserved.length = 6) :
    m.to_bytes.length = 13 := by
  simp [CabModule.to_bytes, List.length_append, List.length_take, h]

lemma ns_from_to (m : NoiseGateModule) (h : m.reserved.length = 5) :
    NoiseGateModule.from_bytes m.to_bytes = m := by
  obtain ⟨header, enabled, type, attack, release, threshold, reserved⟩ := m
  simp only at h
  have htake : reserved.take 5 = reserved := List.take_of_length_le (by omega)
  rw [NoiseGateModule.to_bytes]
  simp only [htake]
  rw [NoiseGateModule.from_bytes]
  have hlen : ([header, enabled, type, attack, release, threshold] ++
      reserved).length = 11 := by
    simp [h]
  rw [padTo, if_neg (by rw [hlen]; norm_num [NoiseGateModule.SIZE])]
  simp [pySlice, List.getD, htake,
    List.drop_left' (by simp :
      ([header, enabled, type, attack, release, threshold] : List Nat).length = 6)]

lemma ns_to_bytes_length (m : NoiseGateModule)
    (h : m.reserved.length = 5) : m.to_bytes.length = 11 := by
  simp [NoiseGateModule.to_bytes, List.length_append, List.length_take, h]

lemma eqmod_from_to (m : EQModule) (hb : m.bands.length = 6)
    (hbe : m.bands_extra.length = 6) (h : m.reserved.length = 8) :
    EQModule.from_bytes m.to_bytes = m := by
  obtain ⟨header, enabled, type, bands, bands_extra, reserved⟩ := m
  simp only at hb hbe h
  have ht1 : bands.take 6 = bands := List.take_of_length_le (by omega)
  have ht2 : bands_extra.take 6 = bands_extra := List.take_of_length_le (by omega)
  have ht3 : reserved.take 8 = reserved := List.take_of_length_le (by omega)
  rw [EQModule.to_bytes]
  simp only [ht1, ht2, ht3]
  rw [EQModule.from_bytes]
  have hlen : ([header, enabled, type] ++ bands ++ bands_extra ++
      reserved).length = 23 := by
    simp [hb, hbe, h]
  rw [padTo, if_neg (by rw [hlen]; norm_num [EQModule.SIZE])]
  have e3 : ([header, enabled, type] ++ bands ++ bands_extra ++ reserved).drop 3 =
      bands ++ bands_extra ++ reserved := by
    rw [List.append_assoc, List.append_assoc]
    rw [List.drop_left' (by simp : ([header, enabled, type] : List Nat).length = 3)]
    rw [← List.append_assoc]
  have e9 : ([header, enabled, type] ++ bands ++ bands_extra ++ reserved).drop 9 =
      bands_extra ++ reserved := by
    have h9 : (9 : Nat) = 3 + 6 := by norm_num
    rw [h9, ← List.drop_drop, e3, List.append_assoc,
      List.drop_left' (by omega : bands.length = 6)]
  have e15 : ([header, enabled, type] ++ bands ++ bands_extra ++ reserved).drop 15 =
      reserved := by
    have h15 : (15 : Nat) = 9 + 6 := by norm_num
    rw [h15, ← List.drop_drop, e9, List.drop_left' (by omega : bands_extra.length = 6)]
  simp [pySlice, List.getD, e3, e9, e15, ht3,
    List.take_left' (by omega : bands.length = 6),
    List.take_left' (by omega : bands_extra.length = 6)]
  constructor
  · rw [List.drop_left' (by omega : bands.length = 6),
      List.take_left' (by omega : bands_extra.length = 6)]
  · have h12 : (12 : Nat) = 6 + 6 := by norm_num
    rw [h12, ← List.drop_drop, List.drop_left' (by omega : bands.length = 6),
      List.drop_left' (by omega : bands_extra.length = 6), ht3]

lemma eqmod_to_bytes_length (m : EQModule) (hb : m.bands.length = 6)
    (hbe : m.bands_extra.length = 6) (h : m.reserved.length = 8) :
    m.to_bytes.length = 23 := by
  simp [EQModule.to_bytes, List.length_append, List.length_take, hb, hbe, h]

lemma modmod_from_to (m : ModulationModule) (h : m.reserved.length = 7) :
    ModulationModule.from_bytes m.to_bytes = m := by
  obtain ⟨header, enabled, type, rate, level, depth, param4, param5, reserved⟩ := m
  simp only at h
  have htake : reserved.take 7 = reserved := List.take_of_length_le (by omega)
  rw [ModulationModule.to_bytes]
  simp only [htake]
  rw [ModulationModule.from_bytes]
  have hlen : ([header, enabled, type, rate, level, depth, param4, param5] ++
      reserved).length = 15 := by
    simp [h]
  rw [padTo, if_neg (by rw [hlen]; norm_num [ModulationModule.SIZE])]
  simp [pySlice, List.getD, htake,
    List.drop_left' (by simp :
      ([header, enabled, type, rate, level, depth, param4, param5] : List Nat).length = 8)]

lemma modmod_to_bytes_length (m : ModulationModule)
    (h : m.reserved.length = 7) : m.to_bytes.length = 15 := by
  simp [ModulationModule.to_bytes, List.length_append, List.length_take, h]

/-- Reconstruction of the 16-bit delay time from its little-endian split. -/
lemma lor_time_split (t : Nat) (h : t < 65536) :
    (t % 256) ||| (((t >>> 8) % 256) <<< 8) = t := by
  have h1 : (t >>> 8) % 256 = t / 256 := by
    rw [Nat.shiftRight_eq_div_pow]
    norm_num
    omega
  rw [h1, Nat.shiftLeft_eq]
  norm_num
  have h2 : t % 256 < 2 ^ 8 := by norm_num [Nat.mod_lt]
  calc (t % 256) ||| (t / 256 * 256)
      = (t / 256 * 256) ||| (t % 256) := Nat.lor_comm _ _
    _ = (2 ^ 8 * (t / 256)) ||| (t % 256) := by rw [Nat.mul_comm]; norm_num
    _ = 2 ^ 8 * (t / 256) + t % 256 := (Nat.mul_add_lt_is_or h2 _).symm
    _ = t := by omega

lemma delay_from_to (m : DelayModule) (ht : m.time_ms < 65536)
    (h : m.reserved.length = 7) :
    DelayModule.from_bytes m.to_bytes = m := by
  obtain ⟨header, enabled, type, level, feedback, time_ms, subdivision, param5,
    param6, reserved⟩ := m
  simp only at ht h
  have htake : reserved.take 7 = reserved := List.take_of_length_le (by omega)
  rw [DelayModule.to_bytes]
  simp only [htake]
  rw [DelayModule.from_bytes]
  have hlen : ([header, enabled, type, level, feedback, time_ms % 256,
      (time_ms >>> 8) % 256, subdivision, param5, param6] ++ reserved).length = 17 := by
    simp [h]
  rw [padTo, if_neg (by rw [hlen]; norm_num [DelayModule.SIZE])]
  simp [pySlice, List.getD, htake,
    List.drop_left' (by simp :
      ([header, enabled, type, level, feedback, time_ms % 256,
        (time_ms >>> 8) % 256, subdivision, param5, param6] : List Nat).length = 10),
    lor_time_split time_ms ht]

lemma delay_to_bytes_length (m : DelayModule) (h : m.reserved.length = 7) :
    m.to_bytes.length = 17 := by
  simp [DelayModule.to_bytes, List.length_append, List.length_take, h]

lemma reverb_from_to (m : ReverbModule) (h : m.reserved.length = 6) :
    ReverbModule.from_bytes m.to_bytes = m := by
  obtain ⟨header, enabled, type, pre_delay, level, decay, tone, reserved⟩ := m
  simp only at h
  have htake : reserved.take 6 = reserved := List.take_of_length_le (by omega)
  rw [ReverbModule.to_bytes]
  simp only [htake]
  rw [ReverbModule.from_bytes]
  have hlen : ([header, enabled, type, pre_delay, level, decay, tone] ++
      reserved).length = 13 := by
    simp [h]
  rw [padTo, if_neg (by rw [hlen]; norm_num [ReverbModule.SIZE])]
  simp [pySlice, List.getD, htake,
    List.drop_left' (by simp :
      ([header, enabled, type, pre_delay, level, decay, tone] : List Nat).length = 7)]

lemma reverb_to_bytes_length (m : ReverbModule) (h : m.reserved.length = 6) :
    m.to_bytes.length = 13 := by
  simp [ReverbModule.to_bytes, List.length_append, List.length_take, h]

/-! ### Buffer-write lemmas for `Preset.to_bytes` -/

/-- Slice assignment of an exactly-sized value at the frontier of the
zero-filled tail. -/
lemma writeSlice_at (P : List Nat) (m s : Nat) (v : List Nat)
    (hv : v.length = s) :
    writeSlice (P ++ List.replicate m 0) P.length (P.length + s) v =
      (P ++ v) ++ List.replicate (m - s) 0 := by
  rw [writeSlice]
  rw [List.take_left]
  rw [List.drop_append_eq_append_drop]
  rw [List.drop_of_length_le (by omega), List.nil_append]
  rw [List.drop_replicate]
  have : P.length + s - P.length = s := by omega
  rw [this, List.append_assoc]

/-- Single-byte assignment at the frontier of the zero-filled tail. -/
lemma set_append_replicate (P : List Nat) (m w : Nat) (hm : 1 ≤ m) :
    (P ++ List.replicate m 0).set P.length w = (P ++ [w]) ++ List.replicate (m - 1) 0 := by
  have hrep : List.replicate m (0 : Nat) = 0 :: List.replicate (m - 1) 0 := by
    cases m with
    | zero => omega
    | succ k => simp [List.replicate_succ]
  rw [hrep, List.set_append_right _ _ (le_refl _)]
  simp

/-- The effect-order loop writes its values (masked to bytes) at the frontier
of the zero-filled tail. -/
lemma writeList_append (P : List Nat) (m : Nat) (vals : List Nat)
    (hm : vals.length ≤ m) :
    writeList (P ++ List.replicate m 0) P.length vals =
      (P ++ vals.map (fun v => v % 256)) ++ List.replicate (m - vals.length) 0 := by
  induction vals generalizing P m with
  | nil => simp [writeList]
  | cons v rest ih =>
    rw [writeList]
    have hm1 : 1 ≤ m := by
      simp only [List.length_cons] at hm
      omega
    rw [set_append_replicate P m (v % 256) hm1]
    have hlen1 : P.length + 1 = (P ++ [v % 256]).length := by simp
    rw [hlen1, ih (P ++ [v % 256]) (m - 1)
      (by simp only [List.length_cons] at hm; omega)]
    simp only [List.append_assoc, List.singleton_append, List.map_cons,
      List.cons_append]
    have : m - 1 - rest.length = m - (rest.length + 1) := by omega
    rw [this]
    simp [List.length_cons]

/-- Extraction of an exactly-aligned slice from a concatenation. -/
lemma pySlice_exact (X v rest : List Nat) (a b : Nat) (hX : X.length = a)
    (hv : v.length = b - a) :
    pySlice a b (X ++ v ++ rest) = v := by
  rw [pySlice, List.append_assoc, ← hv, ← hX, List.drop_left, List.take_left]

/-- Name decoding inverts name encoding for null-free ASCII names. -/
lemma decodeName_pad (name : List Nat) (k : Nat)
    (h : ∀ c ∈ name, 0 < c ∧ c < 128) :
    decodeName (name ++ List.replicate k 0) = name := by
  rw [decodeName]
  have ht : (name ++ List.replicate k 0).takeWhile (fun b => b != 0) = name := by
    rw [List.takeWhile_append_of_pos (by
      intro a ha
      have := (h a ha).1
      simp
      omega)]
    rw [List.takeWhile_replicate]
    simp
  rw [ht]
  have hmap : ∀ c ∈ name, (fun b : Nat => if b < 128 then b else 0xFFFD) c = id c := by
    intro c hc
    simp [(h c hc).2]
  rw [List.map_congr_left hmap, List.map_id]

/-- Normal form of `Preset.to_bytes` for valid presets: the fixed layout
effect-order, big-endian size field (500 = 0x01F4), null-padded 14-byte name,
the nine contiguous modules, and zero padding to 512 bytes. -/
lemma Preset.to_bytes_eq (p : Preset) (h : p.Valid) :
    p.to_bytes =
      p.effect_order ++ [1, 244] ++
      (p.name ++ List.replicate (14 - p.name.length) 0) ++
      p.fx.to_bytes ++ p.od.to_bytes ++ p.amp.to_bytes ++ p.cab.to_bytes ++
      p.ns.to_bytes ++ p.eq.to_bytes ++ p.mod.to_bytes ++ p.delay.to_bytes ++
      p.reverb.to_bytes ++ List.replicate 353 0 := by
  obtain ⟨horder, horder2, hname, hname2, hfx, hod, hamp, hcab, hns, heq,
    hmod, hdelay, hreverb⟩ := h
  have lfx : p.fx.to_bytes.length = 13 :=
    fx_to_bytes_length _ hfx.2.2.2.2.2.2.2
  have lod : p.od.to_bytes.length = 11 :=
    od_to_bytes_length _ hod.2.2.2.2.2.2
  have lamp : p.amp.to_bytes.length = 17 :=
    amp_to_bytes_length _ hamp.2.2.2.2.2.2.2.2.2
  have lcab : p.cab.to_bytes.length = 13 :=
    cab_to_bytes_length _ hcab.2.2.2.2.2.2.2
  have lns : p.ns.to_bytes.length = 11 :=
    ns_to_bytes_length _ hns.2.2.2.2.2.2
  have leq : p.eq.to_bytes.length = 23 :=
    eqmod_to_bytes_length _ heq.2.2.2.1 heq.2.2.2.2.2.1 heq.2.2.2.2.2.2.2
  have lmod : p.mod.to_bytes.length = 15 :=
    modmod_to_bytes_length _ hmod.2.2.2.2.2.2.2.2
  have ldelay : p.delay.to_bytes.length = 17 :=
    delay_to_bytes_length _ hdelay.2.2.2.2.2.2.2.2.2
  have lreverb : p.reverb.to_bytes.length = 13 :=
    reverb_to_bytes_length _ hreverb.2.2.2.2.2.2.2
  have hnb : (p.name.map fun c => if c < 128 then c else 63).take 14 = p.name := by
    have hmap : ∀ c ∈ p.name, (fun c : Nat => if c < 128 then c else 63) c = id c := by
      intro c hc
      simp [(hname2 c hc).2]
    rw [List.map_congr_left hmap, List.map_id]
    exact List.take_of_length_le hname
  have horder10 : p.effect_order.take 10 = p.effect_order :=
    List.take_of_length_le (by omega)
  have hordermap : p.effect_order.map (fun v => v % 256) = p.effect_order := by
    have hmo : ∀ v ∈ p.effect_order, (fun v : Nat => v % 256) v = id v := by
      intro v hv
      simp [Nat.mod_eq_of_lt (horder2 v hv)]
    rw [List.map_congr_left hmo, List.map_id]
  simp only [Preset.to_bytes]
  have s1 : writeList (List.replicate PRESET_SIZE 0) OFF_EFFECT_ORDER
      (p.effect_order.take 10) = p.effect_order ++ List.replicate 502 0 := by
    rw [horder10]
    have h0 : (List.replicate PRESET_SIZE (0 : Nat)) =
        ([] : List Nat) ++ List.replicate 512 0 := by rw [List.nil_append]; rfl
    rw [h0, show OFF_EFFECT_ORDER = ([] : List Nat).length from rfl]
    rw [writeList_append [] 512 p.effect_order (by omega)]
    rw [hordermap]
    simp only [List.nil_append]
    congr 1
    rw [horder]
  rw [s1]
  have s2 : (p.effect_order ++ List.replicate 502 0).set OFF_SIZE
      (((PRESET_SIZE - OFF_SIZE - 2) >>> 8) % 256) =
      (p.effect_order ++ [1]) ++ List.replicate 501 0 := by
    have hv : ((PRESET_SIZE - OFF_SIZE - 2) >>> 8) % 256 = 1 := by decide
    rw [hv, show OFF_SIZE = p.effect_order.length from by rw [horder]; rfl]
    rw [set_append_replicate _ _ _ (by norm_num)]
  rw [s2]
  have s3 : ((p.effect_order ++ [1]) ++ List.replicate 501 0).set (OFF_SIZE + 1)
      ((PRESET_SIZE - OFF_SIZE - 2) % 256) =
      ((p.effect_order ++ [1]) ++ [244]) ++ List.replicate 500 0 := by
    have hv : (PRESET_SIZE - OFF_SIZE - 2) % 256 = 244 := by decide
    have hl : OFF_SIZE + 1 = ((p.effect_order ++ [1])).length := by
      simp [OFF_SIZE, horder]
    rw [hv, hl, set_append_replicate _ _ _ (by norm_num)]
  rw [s3, hnb]
  have s4 : writeSlice (((p.effect_order ++ [1]) ++ [244]) ++ List.replicate 500 0)
      OFF_NAME (OFF_NAME + p.name.length) p.name =
      ((((p.effect_order ++ [1]) ++ [244]) ++ p.name) ++
        List.replicate (14 - p.name.length) 0) ++ List.replicate 486 0 := by
    have hl : OFF_NAME = ((p.effect_order ++ [1]) ++ [244]).length := by
      simp [OFF_NAME, horder]
    rw [hl, writeSlice_at _ 500 p.name.length p.name rfl]
    rw [List.append_assoc (((p.effect_order ++ [1]) ++ [244]) ++ p.name),
      List.append_replicate_replicate]
    have hrep : 500 - p.name.length = 14 - p.name.length + 486 := by omega
    rw [hrep]
  rw [s4]
  set P4 := (((p.effect_order ++ [1]) ++ [244]) ++ p.name) ++
    List.replicate (14 - p.name.length) 0 with hP4def
  have hP4 : P4.length = 26 := by
    rw [hP4def]
    simp only [List.length_append, List.length_cons, List.length_nil,
      List.length_replicate, horder]
    omega
  have s5 : writeSlice (P4 ++ List.replicate 486 0) OFF_FX
      (OFF_FX + FXModule.SIZE) p.fx.to_bytes =
      (P4 ++ p.fx.to_bytes) ++ List.replicate 473 0 := by
    rw [show OFF_FX + FXModule.SIZE = P4.length + 13 from by rw [hP4]; rfl,
      show OFF_FX = P4.length from by rw [hP4]; rfl,
      writeSlice_at P4 486 13 p.fx.to_bytes lfx]
  rw [s5]
  set P5 := P4 ++ p.fx.to_bytes with hP5def
  have hP5 : P5.length = 39 := by
    rw [hP5def, List.length_append, hP4, lfx]
  have s6 : writeSlice (P5 ++ List.replicate 473 0) OFF_OD
      (OFF_OD + DistortionModule.SIZE) p.od.to_bytes =
      (P5 ++ p.od.to_bytes) ++ List.replicate 462 0 := by
    rw [show OFF_OD + DistortionModule.SIZE = P5.length + 11 from by rw [hP5]; rfl,
      show OFF_OD = P5.length from by rw [hP5]; rfl,
      writeSlice_at P5 473 11 p.od.to_bytes lod]
  rw [s6]
  set P6 := P5 ++ p.od.to_bytes with hP6def
  have hP6 : P6.length = 50 := by
    rw [hP6def, List.length_append, hP5, lod]
  have s7 : writeSlice (P6 ++ List.replicate 462 0) OFF_AMP
      (OFF_AMP + AmpModule.SIZE) p.amp.to_bytes =
      (P6 ++ p.amp.to_bytes) ++ List.replicate 445 0 := by
    rw [show OFF_AMP + AmpModule.SIZE = P6.length + 17 from by rw [hP6]; rfl,
      show OFF_AMP = P6.length from by rw [hP6]; rfl,
      writeSlice_at P6 462 17 p.amp.to_bytes lamp]
  rw [s7]
  set P7 := P6 ++ p.amp.to_bytes with hP7def
  have hP7 : P7.length = 67 := by
    rw [hP7def, List.length_append, hP6, lamp]
  have s8 : writeSlice (P7 ++ List.replicate 445 0) OFF_CAB
      (OFF_CAB + CabModule.SIZE) p.cab.to_bytes =
      (P7 ++ p.cab.to_bytes) ++ List.replicate 432 0 := by
    rw [show OFF_CAB + CabModule.SIZE = P7.length + 13 from by rw [hP7]; rfl,
      show OFF_CAB = P7.length from by rw [hP7]; rfl,
      writeSlice_at P7 445 13 p.cab.to_bytes lcab]
  rw [s8]
  set P8 := P7 ++ p.cab.to_bytes with hP8def
  have hP8 : P8.length = 80 := by
    rw [hP8def, List.length_append, hP7, lcab]
  have s9 : writeSlice (P8 ++ List.replicate 432 0) OFF_NS
      (OFF_NS + NoiseGateModule.SIZE) p.ns.to_bytes =
      (P8 ++ p.ns.to_bytes) ++ List.replicate 421 0 := by
    rw [show OFF_NS + NoiseGateModule.SIZE = P8.length + 11 from by rw [hP8]; rfl,
      show OFF_NS = P8.length from by rw [hP8]; rfl,
      writeSlice_at P8 432 11 p.ns.to_bytes lns]
  rw [s9]
  set P9 := P8 ++ p.ns.to_bytes with hP9def
  have hP9 : P9.length = 91 := by
    rw [hP9def, List.length_append, hP8, lns]
  have s10 : writeSlice (P9 ++ List.replicate 421 0) OFF_EQ
      (OFF_EQ + EQModule.SIZE) p.eq.to_bytes =
      (P9 ++ p.eq.to_bytes) ++ List.replicate 398 0 := by
    rw [show OFF_EQ + EQModule.SIZE = P9.length + 23 from by rw [hP9]; rfl,
      show OFF_EQ = P9.length from by rw [hP9]; rfl,
      writeSlice_at P9 421 23 p.eq.to_bytes leq]
  rw [s10]
  set P10 := P9 ++ p.eq.to_bytes with hP10def
  have hP10 : P10.length = 114 := by
    rw [hP10def, List.length_append, hP9, leq]
  have s11 : writeSlice (P10 ++ List.replicate 398 0) OFF_MOD
      (OFF_MOD + ModulationModule.SIZE) p.mod.to_bytes =
      (P10 ++ p.mod.to_bytes) ++ List.replicate 383 0 := by
    rw [show OFF_MOD + ModulationModule.SIZE = P10.length + 15 from by rw [hP10]; rfl,
      show OFF_MOD = P10.length from by rw [hP10]; rfl,
      writeSlice_at P10 398 15 p.mod.to_bytes lmod]
  rw [s11]
  set P11 := P10 ++ p.mod.to_bytes with hP11def
  have hP11 : P11.length = 129 := by
    rw [hP11def, List.length_append, hP10, lmod]
  have s12 : writeSlice (P11 ++ List.replicate 383 0) OFF_DELAY
      (OFF_DELAY + DelayModule.SIZE) p.delay.to_bytes =
      (P11 ++ p.delay.to_bytes) ++ List.replicate 366 0 := by
    rw [show OFF_DELAY + DelayModule.SIZE = P11.length + 17 from by rw [hP11]; rfl,
      show OFF_DELAY = P11.length from by rw [hP11]; rfl,
      writeSlice_at P11 383 17 p.delay.to_bytes ldelay]
  rw [s12]
  set P12 := P11 ++ p.delay.to_bytes with hP12def
  have hP12 : P12.length = 146 := by
    rw [hP12def, List.length_append, hP11, ldelay]
  have s13 : writeSlice (P12 ++ List.replicate 366 0) OFF_REVERB
      (OFF_REVERB + ReverbModule.SIZE) p.reverb.to_bytes =
      (P12 ++ p.reverb.to_bytes) ++ List.replicate 353 0 := by
    rw [show OFF_REVERB + ReverbModule.SIZE = P12.length + 13 from by rw [hP12]; rfl,
      show OFF_REVERB = P12.length from by rw [hP12]; rfl,
      writeSlice_at P12 366 13 p.reverb.to_bytes lreverb]
  rw [s13]
  rw [hP12def, hP11def, hP10def, hP9def, hP8def, hP7def, hP6def, hP5def, hP4def]
  simp only [List.append_assoc, List.cons_append, List.singleton_append,
    List.nil_append]

/-- Slice extraction through an equation with the concatenation normal form. -/
lemma pySlice_of_eq (N X v rest : List Nat) (a b : Nat)
    (hN : N = X ++ (v ++ rest)) (hX : X.length = a) (hv : v.length = b - a) :
    pySlice a b N = v := by
  rw [hN, pySlice, ← hv, ← hX, List.drop_left, List.take_left]

set_option maxRecDepth 4000 in
/-- C2: for every valid preset (name at most 14 null-free ASCII characters,
10-byte effect order, module parameter bytes in 0..255, 16-bit delay time,
twelve EQ band bytes in two groups of six, reserved fields of their declared
lengths), decoding the encoding restores the preset: every typed field of
every module, the name and the effect order are preserved (the reserved
padding is in fact preserved value-for-value as well). -/
theorem claim_C2 (p : Preset) (h : p.Valid) :
    Preset.from_bytes (Preset.to_bytes p) = p := by
  have hN := Preset.to_bytes_eq p h
  obtain ⟨horder, horder2, hname, hname2, hfx, hod, hamp, hcab, hns, heq,
    hmod, hdelay, hreverb⟩ := h
  have lfx : p.fx.to_bytes.length = 13 :=
    fx_to_bytes_length _ hfx.2.2.2.2.2.2.2
  have lod : p.od.to_bytes.length = 11 :=
    od_to_bytes_length _ hod.2.2.2.2.2.2
  have lamp : p.amp.to_bytes.length = 17 :=
    amp_to_bytes_length _ hamp.2.2.2.2.2.2.2.2.2
  have lcab : p.cab.to_bytes.length = 13 :=
    cab_to_bytes_length _ hcab.2.2.2.2.2.2.2
  have lns : p.ns.to_bytes.length = 11 :=
    ns_to_bytes_length _ hns.2.2.2.2.2.2
  have leq : p.eq.to_bytes.length = 23 :=
    eqmod_to_bytes_length _ heq.2.2.2.1 heq.2.2.2.2.2.1 heq.2.2.2.2.2.2.2
  have lmod : p.mod.to_bytes.length = 15 :=
    modmod_to_bytes_length _ hmod.2.2.2.2.2.2.2.2
  have ldelay : p.delay.to_bytes.length = 17 :=
    delay_to_bytes_length _ hdelay.2.2.2.2.2.2.2.2.2
  have lreverb : p.reverb.to_bytes.length = 13 :=
    reverb_to_bytes_length _ hreverb.2.2.2.2.2.2.2
  have rfx : FXModule.from_bytes p.fx.to_bytes = p.fx :=
    fx_from_to _ hfx.2.2.2.2.2.2.2
  have rod : DistortionModule.from_bytes p.od.to_bytes = p.od :=
    od_from_to _ hod.2.2.2.2.2.2
  have ramp : AmpModule.from_bytes p.amp.to_bytes = p.amp :=
    amp_from_to _ hamp.2.2.2.2.2.2.2.2.2
  have rcab : CabModule.from_bytes p.cab.to_bytes = p.cab :=
    cab_from_to _ hcab.2.2.2.2.2.2.2
  have rns : NoiseGateModule.from_bytes p.ns.to_bytes = p.ns :=
    ns_from_to _ hns.2.2.2.2.2.2
  have req : EQModule.from_bytes p.eq.to_bytes = p.eq :=
    eqmod_from_to _ heq.2.2.2.1 heq.2.2.2.2.2.1 heq.2.2.2.2.2.2.2
  have rmo : ModulationModule.from_bytes p.mod.to_bytes = p.mod :=
    modmod_from_to _ hmod.2.2.2.2.2.2.2.2
  have rde : DelayModule.from_bytes p.delay.to_bytes = p.delay :=
    delay_from_to _ hdelay.2.2.2.2.2.1 hdelay.2.2.2.2.2.2.2.2.2
  have rre : ReverbModule.from_bytes p.reverb.to_bytes = p.reverb :=
    reverb_from_to _ hreverb.2.2.2.2.2.2.2
  rw [hN]
  set N := p.effect_order ++ [1, 244] ++
      (p.name ++ List.replicate (14 - p.name.length) 0) ++
      p.fx.to_bytes ++ p.od.to_bytes ++ p.amp.to_bytes ++ p.cab.to_bytes ++
      p.ns.to_bytes ++ p.eq.to_bytes ++ p.mod.to_bytes ++ p.delay.to_bytes ++
      p.reverb.to_bytes ++ List.replicate 353 0 with hNdef
  have hNlen : N.length = 512 := by
    rw [hNdef]
    simp only [List.length_append, List.length_cons, List.length_nil,
      List.length_replicate, horder, lfx, lod, lamp, lcab, lns, leq, lmod,
      ldelay, lreverb]
    omega
  simp only [Preset.from_bytes]
  rw [show padTo PRESET_SIZE N = N from by
    rw [padTo, if_neg (by rw [hNlen]; decide)]]
  have e_order : pySlice OFF_EFFECT_ORDER (OFF_EFFECT_ORDER + 10) N =
      p.effect_order := by
    apply pySlice_of_eq N [] p.effect_order
      ([1, 244] ++ ((p.name ++ List.replicate (14 - p.name.length) 0) ++
        (p.fx.to_bytes ++ (p.od.to_bytes ++ (p.amp.to_bytes ++ (p.cab.to_bytes ++
        (p.ns.to_bytes ++ (p.eq.to_bytes ++ (p.mod.to_bytes ++ (p.delay.to_bytes ++
        (p.reverb.to_bytes ++ List.replicate 353 0))))))))))) _ _
      (by rw [hNdef]; simp [List.append_assoc]) rfl
    rw [horder]
    rfl
  have e_name : pySlice OFF_NAME (OFF_NAME + 14) N =
      p.name ++ List.replicate (14 - p.name.length) 0 := by
    apply pySlice_of_eq N (p.effect_order ++ [1, 244])
      (p.name ++ List.replicate (14 - p.name.length) 0)
      (p.fx.to_bytes ++ (p.od.to_bytes ++ (p.amp.to_bytes ++ (p.cab.to_bytes ++
        (p.ns.to_bytes ++ (p.eq.to_bytes ++ (p.mod.to_bytes ++ (p.delay.to_bytes ++
        (p.reverb.to_bytes ++ List.replicate 353 0)))))))))
      _ _
      (by rw [hNdef]; simp [List.append_assoc])
      (by simp only [List.length_append, List.length_cons, List.length_nil,
        horder]; rfl)
      (by simp only [List.length_append, List.length_replicate]; omega)
  have e_fx : pySlice OFF_FX (OFF_FX + FXModule.SIZE) N = p.fx.to_bytes := by
    apply pySlice_of_eq N
      (p.effect_order ++ [1, 244] ++
        (p.name ++ List.replicate (14 - p.name.length) 0))
      p.fx.to_bytes
      (p.od.to_bytes ++ (p.amp.to_bytes ++ (p.cab.to_bytes ++
        (p.ns.to_bytes ++ (p.eq.to_bytes ++ (p.mod.to_bytes ++ (p.delay.to_bytes ++
        (p.reverb.to_bytes ++ List.replicate 353 0))))))))
      _ _
      (by rw [hNdef]; simp [List.append_assoc])
      (by simp only [List.length_append, List.length_cons, List.length_nil,
        OFF_FX, OFF_OD, OFF_AMP, OFF_CAB, OFF_NS, OFF_EQ, OFF_MOD, OFF_DELAY,
        OFF_REVERB, List.length_replicate, horder]; omega)
      (by rw [lfx]; rfl)
  have e_od : pySlice OFF_OD (OFF_OD + DistortionModule.SIZE) N =
      p.od.to_bytes := by
    apply pySlice_of_eq N
      (p.effect_order ++ [1, 244] ++
        (p.name ++ List.replicate (14 - p.name.length) 0) ++ p.fx.to_bytes)
      p.od.to_bytes
      (p.amp.to_bytes ++ (p.cab.to_bytes ++
        (p.ns.to_bytes ++ (p.eq.to_bytes ++ (p.mod.to_bytes ++ (p.delay.to_bytes ++
        (p.reverb.to_bytes ++ List.replicate 353 0)))))))
      _ _
      (by rw [hNdef]; simp [List.append_assoc])
      (by simp only [List.length_append, List.length_cons, List.length_nil,
        OFF_FX, OFF_OD, OFF_AMP, OFF_CAB, OFF_NS, OFF_EQ, OFF_MOD, OFF_DELAY,
        OFF_REVERB, List.length_replicate, horder, lfx]; omega)
      (by rw [lod]; rfl)
  have e_amp : pySlice OFF_AMP (OFF_AMP + AmpModule.SIZE) N =
      p.amp.to_bytes := by
    apply pySlice_of_eq N
      (p.effect_order ++ [1, 244] ++
        (p.name ++ List.replicate (14 - p.name.length) 0) ++ p.fx.to_bytes ++
        p.od.to_bytes)
      p.amp.to_bytes
      (p.cab.to_bytes ++ (p.ns.to_bytes ++ (p.eq.to_bytes ++ (p.mod.to_bytes ++
        (p.delay.to_bytes ++ (p.reverb.to_bytes ++ List.replicate 353 0))))))
      _ _
      (by rw [hNdef]; simp [List.append_assoc])
      (by simp only [List.length_append, List.length_cons, List.length_nil,
        OFF_FX, OFF_OD, OFF_AMP, OFF_CAB, OFF_NS, OFF_EQ, OFF_MOD, OFF_DELAY,
        OFF_REVERB, List.length_replicate, horder, lfx, lod]; omega)
      (by rw [lamp]; rfl)
  have e_cab : pySlice OFF_CAB (OFF_CAB + CabModule.SIZE) N =
      p.cab.to_bytes := by
    apply pySlice_of_eq N
      (p.effect_order ++ [1, 244] ++
        (p.name ++ List.replicate (14 - p.name.length) 0) ++ p.fx.to_bytes ++
        p.od.to_bytes ++ p.amp.to_bytes)
      p.cab.to_bytes
      (p.ns.to_bytes ++ (p.eq.to_bytes ++ (p.mod.to_bytes ++
        (p.delay.to_bytes ++ (p.reverb.to_bytes ++ List.replicate 353 0)))))
      _ _
      (by rw [hNdef]; simp [List.append_assoc])
      (by simp only [List.length_append, List.length_cons, List.length_nil,
        OFF_FX, OFF_OD, OFF_AMP, OFF_CAB, OFF_NS, OFF_EQ, OFF_MOD, OFF_DELAY,
        OFF_REVERB, List.length_replicate, horder, lfx, lod, lamp]; omega)
      (by rw [lcab]; rfl)
  have e_ns : pySlice OFF_NS (OFF_NS + NoiseGateModule.SIZE) N =
      p.ns.to_bytes := by
    apply pySlice_of_eq N
      (p.effect_order ++ [1, 244] ++
        (p.name ++ List.replicate (14 - p.name.length) 0) ++ p.fx.to_bytes ++
        p.od.to_bytes ++ p.amp.to_bytes ++ p.cab.to_bytes)
      p.ns.to_bytes
      (p.eq.to_bytes ++ (p.mod.to_bytes ++ (p.delay.to_bytes ++
        (p.reverb.to_bytes ++ List.replicate 353 0))))
      _ _
      (by rw [hNdef]; simp [List.append_assoc])
      (by simp only [List.length_append, List.length_cons, List.length_nil,
        OFF_FX, OFF_OD, OFF_AMP, OFF_CAB, OFF_NS, OFF_EQ, OFF_MOD, OFF_DELAY,
        OFF_REVERB, List.length_replicate, horder, lfx, lod, lamp, lcab]; omega)
      (by rw [lns]; rfl)
  have e_eq : pySlice OFF_EQ (OFF_EQ + EQModule.SIZE) N = p.eq.to_bytes := by
    apply pySlice_of_eq N
      (p.effect_order ++ [1, 244] ++
        (p.name ++ List.replicate (14 - p.name.length) 0) ++ p.fx.to_bytes ++
        p.od.to_bytes ++ p.amp.to_bytes ++ p.cab.to_bytes ++ p.ns.to_bytes)
      p.eq.to_bytes
      (p.mod.to_bytes ++ (p.delay.to_bytes ++
        (p.reverb.to_bytes ++ List.replicate 353 0)))
      _ _
      (by rw [hNdef]; simp [List.append_assoc])
      (by simp only [List.length_append, List.length_cons, List.length_nil,
        OFF_FX, OFF_OD, OFF_AMP, OFF_CAB, OFF_NS, OFF_EQ, OFF_MOD, OFF_DELAY,
        OFF_REVERB, List.length_replicate, horder, lfx, lod, lamp, lcab, lns]; omega)
      (by rw [leq]; rfl)
  have e_mod : pySlice OFF_MOD (OFF_MOD + ModulationModule.SIZE) N =
      p.mod.to_bytes := by
    apply pySlice_of_eq N
      (p.effect_order ++ [1, 244] ++
        (p.name ++ List.replicate (14 - p.name.length) 0) ++ p.fx.to_bytes ++
        p.od.to_bytes ++ p.amp.to_bytes ++ p.cab.to_bytes ++ p.ns.to_bytes ++
        p.eq.to_bytes)
      p.mod.to_bytes
      (p.delay.to_bytes ++ (p.reverb.to_bytes ++ List.replicate 353 0))
      _ _
      (by rw [hNdef]; simp [List.append_assoc])
      (by simp only [List.length_append, List.length_cons, List.length_nil,
        OFF_FX, OFF_OD, OFF_AMP, OFF_CAB, OFF_NS, OFF_EQ, OFF_MOD, OFF_DELAY,
        OFF_REVERB, List.length_replicate, horder, lfx, lod, lamp, lcab, lns, leq]; omega)
      (by rw [lmod]; rfl)
  have e_delay : pySlice OFF_DELAY (OFF_DELAY + DelayModule.SIZE) N =
      p.delay.to_bytes := by
    apply pySlice_of_eq N
      (p.effect_order ++ [1, 244] ++
        (p.name ++ List.replicate (14 - p.name.length) 0) ++ p.fx.to_bytes ++
        p.od.to_bytes ++ p.amp.to_bytes ++ p.cab.to_bytes ++ p.ns.to_bytes ++
        p.eq.to_bytes ++ p.mod.to_bytes)
      p.delay.to_bytes
      (p.reverb.to_bytes ++ List.replicate 353 0)
      _ _
      (by rw [hNdef]; simp [List.append_assoc])
      (by simp only [List.length_append, List.length_cons, List.length_nil,
        OFF_FX, OFF_OD, OFF_AMP, OFF_CAB, OFF_NS, OFF_EQ, OFF_MOD, OFF_DELAY,
        OFF_REVERB, List.length_replicate, horder, lfx, lod, lamp, lcab,
        lns, leq, lmod]; omega)
      (by rw [ldelay]; rfl)
  have e_reverb : pySlice OFF_REVERB (OFF_REVERB + ReverbModule.SIZE) N =
      p.reverb.to_bytes := by
    apply pySlice_of_eq N
      (p.effect_order ++ [1, 244] ++
        (p.name ++ List.replicate (14 - p.name.length) 0) ++ p.fx.to_bytes ++
        p.od.to_bytes ++ p.amp.to_bytes ++ p.cab.to_bytes ++ p.ns.to_bytes ++
        p.eq.to_bytes ++ p.mod.to_bytes ++ p.delay.to_bytes)
      p.reverb.to_bytes
      (List.replicate 353 0)
      _ _
      (by rw [hNdef]; simp [List.append_assoc])
      (by simp only [List.length_append, List.length_cons, List.length_nil,
        OFF_FX, OFF_OD, OFF_AMP, OFF_CAB, OFF_NS, OFF_EQ, OFF_MOD, OFF_DELAY,
        OFF_REVERB, List.length_replicate, horder, lfx, lod, lamp, lcab, lns, leq, lmod,
        ldelay]; omega)
      (by rw [lreverb]; rfl)
  rw [e_order, e_name, e_fx, e_od, e_amp, e_cab, e_ns, e_eq, e_mod, e_delay,
    e_reverb]
  rw [decodeName_pad p.name _ hname2, rfx, rod, ramp, rcab, rns, req, rmo,
    rde, rre]

/-- Witness preset for the preset-level claims: nontrivial name, effect order,
module parameters, 16-bit delay time and EQ bands. -/
def samplePreset : Preset :=
  { name := [72, 105],
    effect_order := [9, 8, 7, 6, 5, 4, 3, 2, 1, 0],
    amp := { amp_gain := 99, master := 255 },
    eq := { bands := [1, 2, 3, 4, 5, 6], bands_extra := [7, 8, 9, 10, 11, 12] },
    delay := { time_ms := 60000, level := 3, feedback := 77 } }

/-- Witness for C2 at a concrete valid preset. -/
theorem claim_C2_witness :
    Preset.from_bytes (Preset.to_bytes samplePreset) = samplePreset :=
  claim_C2 samplePreset (by decide)

/-- Serialized preset length for valid presets. -/
lemma preset_to_bytes_length (p : Preset) (h : p.Valid) :
    p.to_bytes.length = 512 := by
  have hN := Preset.to_bytes_eq p h
  obtain ⟨horder, horder2, hname, hname2, hfx, hod, hamp, hcab, hns, heq,
    hmod, hdelay, hreverb⟩ := h
  rw [hN]
  simp only [List.length_append, List.length_cons, List.length_nil,
    List.length_replicate, horder,
    fx_to_bytes_length _ hfx.2.2.2.2.2.2.2,
    od_to_bytes_length _ hod.2.2.2.2.2.2,
    amp_to_bytes_length _ hamp.2.2.2.2.2.2.2.2.2,
    cab_to_bytes_length _ hcab.2.2.2.2.2.2.2,
    ns_to_bytes_length _ hns.2.2.2.2.2.2,
    eqmod_to_bytes_length _ heq.2.2.2.1 heq.2.2.2.2.2.1 heq.2.2.2.2.2.2.2,
    modmod_to_bytes_length _ hmod.2.2.2.2.2.2.2.2,
    delay_to_bytes_length _ hdelay.2.2.2.2.2.2.2.2.2,
    reverb_to_bytes_length _ hreverb.2.2.2.2.2.2.2]
  omega

/-- A Python-representable `Preset` whose FX reserved field is empty rather
than 6 bytes: its serialization is shorter than the declared fixed sizes. -/
def shortReservedPreset : Preset :=
  { fx := { reserved := [] } }

/-- C7 counterexample: for the preset whose FX reserved bytes are empty, the
FX module serializes to 7 bytes (not 13) and the preset to 506 bytes (not
512) — Python bytearray slice assignment shrinks the buffer — so the claim
fails for that `Preset` value. -/
theorem claim_C7_counterexample :
    ¬ ((Preset.to_bytes shortReservedPreset).length = 512 ∧
       (FXModule.to_bytes shortReservedPreset.fx).length = 13) := by
  intro hc
  exact absurd hc.2 (by decide)

/-- C7 (amended): for every preset whose module byte fields are in 0..255 and
whose reserved/band list fields have their declared lengths, `Preset.to_bytes`
returns exactly 512 bytes and each module serializes to its fixed constant
size: fx 13, od 11, amp 17, cab 13, ns 11, eq 23, mod 15, delay 17,
reverb 13 bytes. -/
theorem claim_C7_amended (p : Preset) (h : p.Valid) :
    p.to_bytes.length = 512 ∧
    p.fx.to_bytes.length = 13 ∧ p.od.to_bytes.length = 11 ∧
    p.amp.to_bytes.length = 17 ∧ p.cab.to_bytes.length = 13 ∧
    p.ns.to_bytes.length = 11 ∧ p.eq.to_bytes.length = 23 ∧
    p.mod.to_bytes.length = 15 ∧ p.delay.to_bytes.length = 17 ∧
    p.reverb.to_bytes.length = 13 := by
  have h512 := preset_to_bytes_length p h
  obtain ⟨horder, horder2, hname, hname2, hfx, hod, hamp, hcab, hns, heq,
    hmod, hdelay, hreverb⟩ := h
  exact ⟨h512,
    fx_to_bytes_length _ hfx.2.2.2.2.2.2.2,
    od_to_bytes_length _ hod.2.2.2.2.2.2,
    amp_to_bytes_length _ hamp.2.2.2.2.2.2.2.2.2,
    cab_to_bytes_length _ hcab.2.2.2.2.2.2.2,
    ns_to_bytes_length _ hns.2.2.2.2.2.2,
    eqmod_to_bytes_length _ heq.2.2.2.1 heq.2.2.2.2.2.1 heq.2.2.2.2.2.2.2,
    modmod_to_bytes_length _ hmod.2.2.2.2.2.2.2.2,
    delay_to_bytes_length _ hdelay.2.2.2.2.2.2.2.2.2,
    reverb_to_bytes_length _ hreverb.2.2.2.2.2.2.2⟩

/-- Witness for C7 (amended) at a concrete valid preset. -/
theorem claim_C7_witness :
    (Preset.to_bytes samplePreset).length = 512 ∧
    samplePreset.fx.to_bytes.length = 13 ∧
    samplePreset.od.to_bytes.length = 11 ∧
    samplePreset.amp.to_bytes.length = 17 ∧
    samplePreset.cab.to_bytes.length = 13 ∧
    samplePreset.ns.to_bytes.length = 11 ∧
    samplePreset.eq.to_bytes.length = 23 ∧
    samplePreset.mod.to_bytes.length = 15 ∧
    samplePreset.delay.to_bytes.length = 17 ∧
    samplePreset.reverb.to_bytes.length = 13 :=
  claim_C7_amended samplePreset (by decide)

/-- Length bookkeeping for Python slice assignment. -/
lemma length_writeSlice (buf : List Nat) (a b : Nat) (v : List Nat) :
    (writeSlice buf a b v).length = min a buf.length + v.length + (buf.length - b) := by
  simp [writeSlice, List.length_append, List.length_take, List.length_drop]
  omega

/-- Element-wise writes preserve the buffer length. -/
lemma length_writeList (buf : List Nat) (i : Nat) (vals : List Nat) :
    (writeList buf i vals).length = buf.length := by
  induction vals generalizing buf i with
  | nil => rfl
  | cons v rest ih =>
    rw [writeList, ih]
    simp

/-- Shape of the `.mo` buffer produced by `export_mo`, for any preset. -/
lemma export_mo_eq (p : Preset) : export_mo p =
    List.replicate 512 0 ++ (p.to_bytes ++ List.replicate 1024 0) := by
  simp only [export_mo, writeSlice]
  rw [show MO_PRESET_OFFSET + PRESET_SIZE = (1024 : Nat) from rfl,
    show MO_PRESET_OFFSET = (512 : Nat) from rfl,
    show MO_FILE_SIZE = (2048 : Nat) from rfl]
  rw [List.take_replicate, List.drop_replicate]
  norm_num

/-- The preset with the empty FX reserved field serializes to 506 bytes. -/
lemma shortReserved_to_bytes_length :
    (Preset.to_bytes shortReservedPreset).length = 506 := by
  have lfx : shortReservedPreset.fx.to_bytes.length = 7 := by decide
  have lod : shortReservedPreset.od.to_bytes.length = 11 := by decide
  have lamp : shortReservedPreset.amp.to_bytes.length = 17 := by decide
  have lcab : shortReservedPreset.cab.to_bytes.length = 13 := by decide
  have lns : shortReservedPreset.ns.to_bytes.length = 11 := by decide
  have leq : shortReservedPreset.eq.to_bytes.length = 23 := by decide
  have lmod : shortReservedPreset.mod.to_bytes.length = 15 := by decide
  have ldelay : shortReservedPreset.delay.to_bytes.length = 17 := by decide
  have lreverb : shortReservedPreset.reverb.to_bytes.length = 13 := by decide
  have lnm : ((shortReservedPreset.name.map fun c =>
      if c < 128 then c else 63).take 14).length = 0 := by decide
  simp only [Preset.to_bytes, length_writeSlice, length_writeList,
    List.length_set, List.length_replicate, lfx, lod, lamp, lcab, lns, leq,
    lmod, ldelay, lreverb, lnm, PRESET_SIZE, OFF_EFFECT_ORDER, OFF_SIZE,
    OFF_NAME, OFF_FX, OFF_OD, OFF_AMP, OFF_CAB, OFF_NS, OFF_EQ, OFF_MOD,
    OFF_DELAY, OFF_REVERB, FXModule.SIZE, DistortionModule.SIZE,
    AmpModule.SIZE, CabModule.SIZE, NoiseGateModule.SIZE, EQModule.SIZE,
    ModulationModule.SIZE, DelayModule.SIZE, ReverbModule.SIZE]
  norm_num

/-- C9 counterexample: exporting the preset whose FX reserved bytes are empty
produces a 2042-byte file, not 2048 — Python bytearray slice assignment
shrinks the buffer when the serialized preset is shorter than 512 bytes. -/
theorem claim_C9_counterexample :
    ¬ ((export_mo shortReservedPreset).length = 2048) := by
  rw [export_mo_eq]
  simp only [List.length_append, List.length_replicate,
    shortReserved_to_bytes_length]
  omega

/-- C9 (amended): for every valid preset, `export_mo` produces exactly 2048
bytes with bytes `[0, 0x200)` zero, the 512-byte serialized preset at
`[0x200, 0x200+512)` and the remainder zero; `import_mo` on any input shorter
than `0x200 + 512` bytes signals a size error, and on any long-enough input
decodes the preset from exactly that byte range. -/
theorem claim_C9_amended (p : Preset) (h : p.Valid) :
    (export_mo p).length = 2048 ∧
    pySlice 0 0x200 (export_mo p) = List.replicate 0x200 0 ∧
    pySlice 0x200 (0x200 + 512) (export_mo p) = p.to_bytes ∧
    pySlice (0x200 + 512) 0x800 (export_mo p) = List.replicate 1024 0 ∧
    (∀ data : List Nat, data.length < 0x200 + 512 →
      ∃ e, import_mo data = Except.error e) ∧
    (∀ data : List Nat, 0x200 + 512 ≤ data.length →
      import_mo data =
        Except.ok (Preset.from_bytes (pySlice 0x200 (0x200 + 512) data))) := by
  have h512 := preset_to_bytes_length p h
  refine ⟨?_, ?_, ?_, ?_, ?_, ?_⟩
  · rw [export_mo_eq p]
    rw [List.length_append, List.length_append, List.length_replicate,
      List.length_replicate, h512]
  · exact pySlice_of_eq _ [] (List.replicate 512 0)
      (p.to_bytes ++ List.replicate 1024 0) _ _
      (by rw [export_mo_eq p, List.nil_append]) rfl
      (by rw [List.length_replicate])
  · exact pySlice_of_eq _ (List.replicate 512 0) p.to_bytes
      (List.replicate 1024 0) _ _ (export_mo_eq p)
      (by rw [List.length_replicate]) (by omega)
  · exact pySlice_of_eq _ (List.replicate 512 0 ++ p.to_bytes)
      (List.replicate 1024 0) [] _ _
      (by rw [export_mo_eq p, List.append_nil, List.append_assoc])
      (by rw [List.length_append, List.length_replicate, h512])
      (by rw [List.length_replicate])
  · intro data hd
    rw [import_mo, if_pos (by
      rw [show MO_PRESET_OFFSET + PRESET_SIZE = (1024 : Nat) from rfl]
      omega)]
    exact ⟨_, rfl⟩
  · intro data hd
    rw [import_mo, if_neg (by
      rw [show MO_PRESET_OFFSET + PRESET_SIZE = (1024 : Nat) from rfl]
      omega)]
    rw [show MO_PRESET_OFFSET + PRESET_SIZE = (0x200 + 512 : Nat) from rfl,
      show MO_PRESET_OFFSET = (0x200 : Nat) from rfl]

/-- Witness for C9 (amended): the export shape at a concrete valid preset and
the import size error at a short input. -/
theorem claim_C9_witness :
    (export_mo samplePreset).length = 2048 ∧
    (∃ e, import_mo (List.replicate 100 0) = Except.error e) :=
  ⟨(claim_C9_amended samplePreset (by decide)).1,
   (claim_C9_amended samplePreset (by decide)).2.2.2.2.1 (List.replicate 100 0)
     (by simp)⟩

end Mooer
